import Mathlib

/-!
Verification development for the payment and order transaction core of the
shop backend (order service, Payme JSON-RPC state machine, Click two-phase
callback handler, money codec).

The Python services are shallowly embedded as pure Lean functions over an
explicit database state.  Datetime columns are modelled as integer epoch
seconds; Payme wire times (milliseconds) are compared against `now * 1000`
exactly as the source compares `time.time() * 1000` with provider values.
SQLAlchemy sessions are modelled by returning the committed database state
from every handler: intermediate `commit()` calls publish the working state,
and an exception path returns the state of the last commit (the FastAPI
session dependency closes the session without committing on exceptions).
`SELECT ... FOR UPDATE` row locking serialises handlers in the source, so the
embedding gives each handler run atomic (sequential) semantics.
-/

deriving instance DecidableEq for Except

namespace ShopBot

/-- Runtime configuration mirroring `app/config.py` (the fields read by the
modelled code paths). -/
structure Settings where
  timeoutMinutes : Int
  paymeId : String
  paymeUrl : String
  defaultPackageCode : String
  clickServiceId : String
  clickMerchantId : String
deriving DecidableEq, Repr

/-- `users` table (`app/database/models.py`); only the columns read by the
payment/order core are kept.  `debt` is a non-nullable integer column with
default 0. -/
structure User where
  id : Int
  debt : Int
deriving DecidableEq, Repr

/-- `products` table; `ikpu` and `package_code` are nullable string columns. -/
structure Product where
  id : Int
  nameRu : String
  price : Int
  stock : Int
  isActive : Bool
  ikpu : Option String
  packageCode : Option String
deriving DecidableEq, Repr

/-- `cart_items` table. -/
structure CartItem where
  id : Int
  userId : Int
  productId : Int
  quantity : Int
deriving DecidableEq, Repr

/-- `orders` table.  `createdAt` is epoch seconds. -/
structure Order where
  id : Int
  userId : Int
  status : String
  orderType : String
  paymentMethod : String
  deliveryMethod : String
  deliveryAddress : String
  totalAmount : Int
  contactPhone : String
  createdAt : Int
deriving DecidableEq, Repr

/-- `order_items` table.  The `id` and `stock_before_order` columns are never
read by the modelled logic and are omitted. -/
structure OrderItem where
  orderId : Int
  productId : Option Int
  productName : String
  priceAtPurchase : Int
  quantity : Int
deriving DecidableEq, Repr

/-- `payme_transactions` table.  `createTime` is epoch seconds;
`time` is the provider timestamp in milliseconds. -/
structure PaymeTx where
  id : Int
  paymeId : String
  time : Int
  amount : Int
  orderId : Int
  state : Int
  reason : Option Int
  createTime : Int
  performTime : Option Int
  cancelTime : Option Int
deriving DecidableEq, Repr

/-- `click_transactions` table (columns used by the modelled logic).  The
stored amount is kept as the integral value of the parsed decimal. -/
structure ClickTx where
  id : Int
  clickTransId : Int
  serviceId : Int
  clickPaydocId : Int
  merchantTransId : String
  amount : Int
  action : Int
  error : Int
  signTime : String
  signString : String
  status : String
deriving DecidableEq, Repr

/-- The database.  Each `nextXId` counter models the corresponding primary key
sequence. -/
structure DB where
  users : List User
  products : List Product
  cartItems : List CartItem
  orders : List Order
  orderItems : List OrderItem
  paymeTxs : List PaymeTx
  clickTxs : List ClickTx
  addresses : List (Int × String)
  nextOrderId : Int
  nextPaymeTxId : Int
  nextClickTxId : Int
deriving DecidableEq, Repr

/-! ## Python primitives: whitespace, `int()`, `decimal.Decimal` -/

/-- Python `str.strip()` whitespace characters. -/
def pyIsWs (c : Char) : Bool :=
  c = ' ' || c = '\t' || c = '\n' || c = '\r' || c = '\x0b' || c = '\x0c'

/-- Strip leading and trailing whitespace, as `str.strip()`. -/
def pyStrip (l : List Char) : List Char :=
  ((l.dropWhile pyIsWs).reverse.dropWhile pyIsWs).reverse

/-- Python `int(str)`: optional surrounding whitespace, optional sign, one or
more decimal digits. -/
def parsePyInt (s : String) : Option Int :=
  match pyStrip s.data with
  | [] => none
  | c :: rest =>
    let p : Bool × List Char :=
      if c = '-' then (true, rest)
      else if c = '+' then (false, rest)
      else (false, c :: rest)
    if p.2 ≠ [] ∧ p.2.all Char.isDigit then
      let v : Nat := p.2.foldl (fun a d => a * 10 + (d.toNat - 48)) 0
      some (if p.1 then -(v : Int) else (v : Int))
    else none

/-- Value of a `decimal.Decimal`: finite values carry an integer mantissa and
a power-of-ten exponent, `m * 10 ^ e`. -/
inductive PyDec where
  | finite (m : Int) (e : Int)
  | infinite (neg : Bool)
  | nan
deriving DecidableEq, Repr

/-- Consume a run of digits, returning accumulated value, digit count and the
rest of the input. -/
def takeDigits : List Char → Nat → Nat → Nat × Nat × List Char
  | [], acc, cnt => (acc, cnt, [])
  | c :: cs, acc, cnt =>
    if c.isDigit then takeDigits cs (acc * 10 + (c.toNat - 48)) (cnt + 1)
    else (acc, cnt, c :: cs)

/-- Read an optional leading sign; `true` means negative. -/
def readSign : List Char → Bool × List Char
  | '-' :: r => (true, r)
  | '+' :: r => (false, r)
  | l => (false, l)

/-- Parse the optional exponent part of a decimal numeric string; the input
must be fully consumed. -/
def parseExpPart (mant : Nat) (fracLen : Nat) : List Char → Option (Nat × Int)
  | [] => some (mant, -(fracLen : Int))
  | c :: r2 =>
    if c = 'e' ∨ c = 'E' then
      let sr := readSign r2
      let t := takeDigits sr.2 0 0
      if t.2.1 = 0 ∨ t.2.2 ≠ [] then none
      else
        some (mant, (if sr.1 then -(t.1 : Int) else (t.1 : Int)) - (fracLen : Int))
    else none

/-- Parse the `decimal-part [exponent-part]` body of a decimal numeric
string: `digits [. [digits]] | . digits`, then an optional exponent. -/
def parseNumericBody (l : List Char) : Option (Nat × Int) :=
  let t := takeDigits l 0 0
  match t.2.2 with
  | '.' :: r2 =>
    let f := takeDigits r2 0 0
    if t.2.1 + f.2.1 = 0 then none
    else parseExpPart (t.1 * 10 ^ f.2.1 + f.1) f.2.1 f.2.2
  | _ => if t.2.1 = 0 then none else parseExpPart t.1 0 t.2.2

/-- Lower-case a character list. -/
def lowerList (l : List Char) : List Char := l.map Char.toLower

/-- `Infinity` / `Inf` literal (case-insensitive). -/
def isInfLit (l : List Char) : Bool :=
  lowerList l == "inf".data || lowerList l == "infinity".data

/-- `NaN [digits]` / `sNaN [digits]` literal (case-insensitive). -/
def isNanLit (l : List Char) : Bool :=
  let low := lowerList l
  (low.take 3 == "nan".data && (low.drop 3).all Char.isDigit) ||
    (low.take 4 == "snan".data && (low.drop 4).all Char.isDigit)

/-- `decimal.Decimal(str)`: surrounding whitespace and underscores are
removed, then `[sign] (decimal-part [exponent] | infinity | nan)`. -/
def pyDecOfChars (l : List Char) : Option PyDec :=
  let cleaned := (pyStrip l).filter (fun c => c ≠ '_')
  let sr := readSign cleaned
  if isInfLit sr.2 then some (.infinite sr.1)
  else if isNanLit sr.2 then some .nan
  else
    match parseNumericBody sr.2 with
    | some (m, e) => some (.finite (if sr.1 then -(m : Int) else (m : Int)) e)
    | none => none

/-- A finite decimal `m * 10 ^ e` equals its integral value. -/
def decIsIntegral (m e : Int) : Bool :=
  if 0 ≤ e then true else m % ((10 : Int) ^ (-e).toNat) = 0

/-- Integer value of an integral finite decimal (exact division). -/
def decToInt (m e : Int) : Int :=
  if 0 ≤ e then m * (10 : Int) ^ e.toNat else m / ((10 : Int) ^ (-e).toNat)

/-- `app/utils/money.py` `normalize_amount`: `Decimal(str(amount))`, reject
non-finite values, reject values not equal to their integral value, return
the integer. -/
def normalizeAmount (s : String) : Option Int :=
  match pyDecOfChars s.data with
  | some (.finite m e) => if decIsIntegral m e then some (decToInt m e) else none
  | some _ => none
  | none => none

/-- Remove every whitespace character, as `"".join(s.split())`. -/
def removeAllWs (l : List Char) : List Char := l.filter (fun c => !(pyIsWs c))

/-- Replace every comma by a dot. -/
def commaToDot (l : List Char) : List Char :=
  l.map (fun c => if c = ',' then '.' else c)

/-- `ClickService._parse_amount`: join-split whitespace removal, comma to
dot, `Decimal`, reject when `amount != amount.to_integral_value()`.  A quiet
NaN compares unequal to itself and is rejected; an infinity compares equal to
its integral value and is returned as is. -/
def clickParseAmount (s : String) : Option PyDec :=
  match pyDecOfChars (commaToDot (removeAllWs s.data)) with
  | some (.finite m e) => if decIsIntegral m e then some (.finite m e) else none
  | some (.infinite b) => some (.infinite b)
  | some .nan => none
  | none => none

/-- Integer view of a successfully parsed Click amount (finite case). -/
def clickParsedInt (s : String) : Option Int :=
  match clickParseAmount s with
  | some (.finite m e) => some (decToInt m e)
  | _ => none

/-- Numeric equality of a parsed decimal with an integer (the comparison
`amount != Decimal(order.total_amount)` in the Click service). -/
def decEqInt (d : PyDec) (n : Int) : Bool :=
  match d with
  | .finite m e =>
    if 0 ≤ e then m * (10 : Int) ^ e.toNat == n else m == n * (10 : Int) ^ (-e).toNat
  | _ => false

/-- Acceptor transcribed from the specification text for the money codec:
"after trimming whitespace and replacing `,` with `.`, the decimal equals its
integer truncation".  Used to compare the spec wording with the code. -/
def specMoneyAccept (s : String) : Option Int :=
  match pyDecOfChars (commaToDot (pyStrip s.data)) with
  | some (.finite m e) => if decIsIntegral m e then some (decToInt m e) else none
  | _ => none

/-! ## Database lookups and updates -/

/-- Python truthiness of a nullable integer column (`None` and `0` are
falsy). -/
def truthyOptInt : Option Int → Bool
  | none => false
  | some n => n ≠ 0

/-- Python truthiness of a nullable string column (`None` and `""` are
falsy). -/
def truthyOptStr : Option String → Bool
  | none => false
  | some s => s ≠ ""

/-- `scalar_one_or_none()`: `none` models the `MultipleResultsFound`
exception raised on two or more rows. -/
def scalarOneOrNone {α : Type} : List α → Option (Option α)
  | [] => some none
  | [a] => some (some a)
  | _ :: _ :: _ => none

def findOrder (db : DB) (oid : Int) : Option Order :=
  db.orders.find? (fun o => o.id == oid)

def findUser (db : DB) (uid : Int) : Option User :=
  db.users.find? (fun u => u.id == uid)

def findProduct (db : DB) (pid : Int) : Option Product :=
  db.products.find? (fun p => p.id == pid)

def findPaymeTx (db : DB) (pid : String) : Option PaymeTx :=
  db.paymeTxs.find? (fun t => t.paymeId == pid)

/-- `order.items` (the `selectinload(Order.items)` relationship). -/
def orderItemsOf (db : DB) (oid : Int) : List OrderItem :=
  db.orderItems.filter (fun it => it.orderId == oid)

/-- `UPDATE products SET stock = stock + q WHERE id = pid` (a no-op when the
product row no longer exists). -/
def addStock (db : DB) (pid q : Int) : DB :=
  { db with products := db.products.map (fun p =>
      if p.id = pid then { p with stock := p.stock + q } else p) }

/-- `UPDATE users SET debt = coalesce(debt, 0) + amt WHERE id = uid`
(`debt` is non-nullable, so the coalesce is the identity). -/
def addDebt (db : DB) (uid amt : Int) : DB :=
  { db with users := db.users.map (fun u =>
      if u.id = uid then { u with debt := u.debt + amt } else u) }

/-! ## OrderService.cancel_order and expiry cancellation -/

/-- `OrderService.cancel_order` (`app/services/order_service.py`): lock the
order, no-op when missing or already cancelled; for product orders restore
stock for every item with a truthy `product_id`; for paid/done debt-repayment
orders restore the user debt; set the status to `cancelled`.  The function
itself does not commit; callers commit. -/
def cancelOrder (db : DB) (orderId : Int) : DB :=
  match findOrder db orderId with
  | none => db
  | some o =>
    if o.status = "cancelled" then db
    else
      let db1 :=
        if o.orderType = "product" then
          (orderItemsOf db orderId).foldl
            (fun acc it =>
              if truthyOptInt it.productId then addStock acc (it.productId.getD 0) it.quantity
              else acc) db
        else db
      let db2 :=
        if o.orderType = "debt_repayment" ∧ (o.status = "paid" ∨ o.status = "done") then
          addDebt db1 o.userId o.totalAmount
        else db1
      { db2 with orders := db2.orders.map (fun x =>
          if x.id = orderId then { x with status := "cancelled" } else x) }

/-- The expiry condition of `cancel_expired_online_order` /
`cancel_expired_online_orders`: status `new`, online payment method, created
before `now - ORDER_PAYMENT_TIMEOUT_MINUTES`. -/
def expiredOnline (cfg : Settings) (now : Int) (o : Order) : Prop :=
  o.status = "new" ∧ (o.paymentMethod = "card" ∨ o.paymentMethod = "click") ∧
    o.createdAt < now - cfg.timeoutMinutes * 60

instance (cfg : Settings) (now : Int) (o : Order) : Decidable (expiredOnline cfg now o) := by
  unfold expiredOnline; infer_instance

/-- `OrderService.cancel_expired_online_order`: when the loaded order is
expired, cancel it and COMMIT the shared session immediately, returning
`true`; otherwise leave the session untouched. -/
def cancelExpiredOnlineOrder (cfg : Settings) (now : Int) (db : DB) (o : Order) : Bool × DB :=
  if expiredOnline cfg now o then (true, cancelOrder db o.id) else (false, db)

/-- `OrderService.cancel_expired_online_orders` restricted to one user:
cancel every expired online order of the user and commit. -/
def cancelExpiredOnlineOrders (cfg : Settings) (now : Int) (db : DB) (userId : Int) : DB :=
  let ids := (db.orders.filter (fun o =>
    o.userId == userId && decide (expiredOnline cfg now o))).map (fun o => o.id)
  ids.foldl cancelOrder db

/-! ## Cart drain (duplicated verbatim in `PaymeService.perform_transaction`
and `ClickService.complete`; modelled once) -/

/-- `ordered_quantities[pid]` with the `defaultdict(int)` default. -/
def oqLookup (m : List (Int × Int)) (k : Int) : Int :=
  match m.find? (fun p => p.1 == k) with
  | some p => p.2
  | none => 0

def oqMember (m : List (Int × Int)) (k : Int) : Bool :=
  m.any (fun p => p.1 == k)

/-- `ordered_quantities[k] = v`. -/
def oqSet (m : List (Int × Int)) (k v : Int) : List (Int × Int) :=
  m.map (fun p => if p.1 = k then (p.1, v) else p)

/-- `ordered_quantities[k] += v` with the `defaultdict(int)` default. -/
def oqAdd (m : List (Int × Int)) (k v : Int) : List (Int × Int) :=
  if oqMember m k then m.map (fun p => if p.1 = k then (p.1, p.2 + v) else p)
  else m ++ [(k, v)]

/-- The per-product ordered-quantity multiset built from the order items
(items with a falsy `product_id` are skipped). -/
def orderedQuantities (items : List OrderItem) : List (Int × Int) :=
  items.foldl (fun m it =>
    if truthyOptInt it.productId then oqAdd m (it.productId.getD 0) it.quantity else m) []

/-- The drain loop over the locked cart rows (in ascending id order):
skip exhausted products, decrement partially consumed rows, delete fully
consumed rows.  Returns the surviving rows and the final map. -/
def drainRows : List (Int × Int) → List CartItem → List CartItem × List (Int × Int)
  | m, [] => ([], m)
  | m, c :: rest =>
    let r := oqLookup m c.productId
    if r ≤ 0 then
      let t := drainRows m rest
      (c :: t.1, t.2)
    else if r < c.quantity then
      let t := drainRows (oqSet m c.productId 0) rest
      ({ c with quantity := c.quantity - r } :: t.1, t.2)
    else
      drainRows (oqSet m c.productId (r - c.quantity)) rest

/-- The `SELECT ... WHERE user_id = ? AND product_id IN keys ORDER BY id FOR
UPDATE` row filter. -/
def drainSelPred (uid : Int) (oq : List (Int × Int)) (c : CartItem) : Bool :=
  c.userId == uid && oqMember oq c.productId

def sortById (l : List CartItem) : List CartItem :=
  l.mergeSort (fun a b => a.id ≤ b.id)

/-- The cart drain: when the ordered-quantity map is empty nothing is
selected; otherwise the user's cart rows for the ordered products are
scanned in id order and drained.  The list order of the resulting table is
immaterial (a table is a multiset); unselected rows are kept unchanged. -/
def drainCart (db : DB) (uid : Int) (oq : List (Int × Int)) : DB :=
  if oq.isEmpty then db
  else
    let sel := sortById (db.cartItems.filter (drainSelPred uid oq))
    let keep := db.cartItems.filter (fun c => !(drainSelPred uid oq c))
    { db with cartItems := keep ++ (drainRows oq sel).1 }

/-! ## PaymeService (`app/services/payme_logic.py`)

Row-lock acquisition and `lock_timeout` handling are concurrency mechanics
outside the sequential embedding; each handler run is modelled atomically.
Every handler returns the committed database: error paths roll back to the
last commit. -/

namespace PaymeErrors

def INVALID_AMOUNT : Int := -31001
def TRANSACTION_NOT_FOUND : Int := -31003
def ORDER_NOT_FOUND : Int := -31050
def ORDER_AVAILABLE : Int := -31051
def CANT_CANCEL : Int := -31007
def ALREADY_DONE : Int := -31008

end PaymeErrors

/-- A Payme JSON-RPC failure: `payme c` is a raised `PaymeException` with
code `c`; `system` is any other uncaught exception, which the webhook in
`app/web/routes/payme.py` maps to the `-32400` "System Error" response. -/
inductive PErr where
  | payme (code : Int)
  | system
deriving DecidableEq, Repr

/-- One item of the `detail.items` receipt array. -/
structure ReceiptItem where
  title : String
  price : Int
  count : Int
  code : String
  units : Int
  vatPercent : Int
  packageCode : String
deriving DecidableEq, Repr

structure Receipt where
  receiptType : Int
  items : List ReceiptItem
deriving DecidableEq, Repr

/-- A Payme result dictionary; a field holding `none` models an absent
key. -/
structure PSnap where
  createTime : Option Int := none
  performTime : Option Int := none
  cancelTime : Option Int := none
  transaction : String := ""
  state : Int := 0
  detail : Option Receipt := none
deriving DecidableEq, Repr

abbrev PResult := Except PErr PSnap × DB

/-- `int(ts.timestamp() * 1000) if ts else 0`. -/
def msOrZero : Option Int → Int
  | some t => t * 1000
  | none => 0

/-- The receipt items array of `create_transaction`: a synthetic debt line
for item-less debt-repayment orders, otherwise one line per order item with
the product's fiscal codes (falling back to defaults for falsy values). -/
def receiptItemsFor (cfg : Settings) (db : DB) (o : Order) (items : List OrderItem) :
    List ReceiptItem :=
  if o.orderType = "debt_repayment" ∧ items = [] then
    [{ title := "Погашение долга", price := o.totalAmount * 100, count := 1,
       code := "00702001001000001", units := 241092, vatPercent := 0,
       packageCode := cfg.defaultPackageCode }]
  else
    items.map (fun it =>
      let prod := it.productId.bind (findProduct db)
      { title := it.productName, price := it.priceAtPurchase * 100, count := it.quantity,
        code :=
          match prod with
          | some p => if truthyOptStr p.ikpu then p.ikpu.getD "" else "00702001001000001"
          | none => "00702001001000001",
        units := 241092, vatPercent := 0,
        packageCode :=
          match prod with
          | some p =>
            if truthyOptStr p.packageCode then p.packageCode.getD ""
            else cfg.defaultPackageCode
          | none => cfg.defaultPackageCode })

/-- The debt-repayment overpayment test of `create_transaction`:
`order.user and order.user.debt is not None and amount > debt * 100`
(`debt` is a non-nullable column). -/
def debtOverpay (db : DB) (o : Order) (amount : Int) : Bool :=
  match findUser db o.userId with
  | some u => decide (u.debt * 100 < amount)
  | none => false

/-- The tail of `PaymeService.create_transaction` after all order checks
passed: debt-overpayment check (whose order-cancel path raises `TypeError`
because `cancel_order` has no `commit` parameter), empty product order
check, cancellation of a pre-existing active transaction (reason 4), insert
of the new state-1 row, commit, and the receipt response. -/
def createTransactionInsert (cfg : Settings) (now : Int) (db : DB) (paymeId : String)
    (timeMs amount : Int) (o : Order) : PResult :=
  if o.orderType = "debt_repayment" ∧ debtOverpay db o amount then
    (.error .system, db)
  else if o.orderType = "product" ∧ orderItemsOf db o.id = [] then
    (.error (.payme PaymeErrors.ORDER_AVAILABLE), db)
  else
    match scalarOneOrNone (db.paymeTxs.filter (fun t => t.orderId == o.id && t.state == 1)) with
    | none => (.error .system, db)
    | some found =>
      let db2 : DB :=
        match found with
        | some act =>
          { db with paymeTxs := db.paymeTxs.map (fun t =>
              if t.id = act.id then
                { t with state := -1, reason := some 4, cancelTime := some now }
              else t) }
        | none => db
      let txId := db2.nextPaymeTxId
      let newTx : PaymeTx :=
        { id := txId, paymeId := paymeId, time := timeMs, amount := amount, orderId := o.id,
          state := 1, reason := none, createTime := now, performTime := none,
          cancelTime := none }
      let db3 := { db2 with paymeTxs := db2.paymeTxs ++ [newTx], nextPaymeTxId := txId + 1 }
      (.ok { createTime := some (now * 1000), transaction := toString txId, state := 1,
             detail := some { receiptType := 0,
                              items := receiptItemsFor cfg db o (orderItemsOf db o.id) } },
       db3)

/-- `PaymeService.create_transaction`.  `rawAmount` is the string view of the
JSON `amount` value; `account` is the raw `account.order_id` field. -/
def createTransaction (cfg : Settings) (now : Int) (db : DB) (paymeId : String)
    (timeMs : Int) (rawAmount : String) (account : Option String) : PResult :=
  match normalizeAmount rawAmount with
  | none => (.error (.payme PaymeErrors.INVALID_AMOUNT), db)
  | some amount =>
    if now * 1000 + 60000 < timeMs then (.error (.payme PaymeErrors.INVALID_AMOUNT), db)
    else if cfg.timeoutMinutes * 60 * 1000 < |now * 1000 - timeMs| then
      (.error (.payme PaymeErrors.INVALID_AMOUNT), db)
    else
      match findPaymeTx db paymeId with
      | some tx =>
        if tx.amount ≠ amount then (.error (.payme PaymeErrors.INVALID_AMOUNT), db)
        else
          match account.bind parsePyInt with
          | none => (.error (.payme PaymeErrors.ORDER_NOT_FOUND), db)
          | some oid =>
            if tx.orderId ≠ oid then (.error (.payme PaymeErrors.ORDER_AVAILABLE), db)
            else if tx.state ≠ 1 then
              (.ok { createTime := some (tx.createTime * 1000),
                     performTime := some (msOrZero tx.performTime),
                     cancelTime := some (msOrZero tx.cancelTime),
                     transaction := toString tx.id, state := tx.state }, db)
            else
              (.ok { createTime := some (tx.createTime * 1000),
                     transaction := toString tx.id, state := 1 }, db)
      | none =>
        match account.bind parsePyInt with
        | none => (.error (.payme PaymeErrors.ORDER_NOT_FOUND), db)
        | some oid =>
          match findOrder db oid with
          | none => (.error (.payme PaymeErrors.ORDER_NOT_FOUND), db)
          | some o =>
            if o.orderType = "debt_repayment" ∧ o.paymentMethod ≠ "card" then
              (.error (.payme PaymeErrors.ORDER_AVAILABLE), db)
            else if o.paymentMethod ≠ "card" then
              (.error (.payme PaymeErrors.ORDER_AVAILABLE), db)
            else if expiredOnline cfg now o then
              (.error (.payme PaymeErrors.ORDER_AVAILABLE), cancelOrder db o.id)
            else if o.totalAmount * 100 ≠ amount then
              (.error (.payme PaymeErrors.INVALID_AMOUNT), db)
            else if o.status ≠ "new" then
              (.error (.payme PaymeErrors.ORDER_AVAILABLE), db)
            else createTransactionInsert cfg now db paymeId timeMs amount o

/-- The state-1 tail of `PaymeService.perform_transaction` after order checks
passed: set state 2 / perform time, re-check the (dead) paid-done early
return, verify debt coverage for debt repayment (the violation path raises
`TypeError` via `cancel_order(..., commit=False)`), mark the order paid,
drain the cart, apply the saturating debt deduction, commit. -/
def performTransactionCommit (now : Int) (db : DB) (tx : PaymeTx) (o : Order) : PResult :=
  let dbT := { db with paymeTxs := db.paymeTxs.map (fun t =>
      if t.id = tx.id then { t with state := 2, performTime := some now } else t) }
  if o.status = "paid" ∨ o.status = "done" then
    (.ok { performTime := some (now * 1000), transaction := toString tx.id, state := 2 }, dbT)
  else
    let userLocked := if o.orderType = "debt_repayment" then findUser db o.userId else none
    if o.orderType = "debt_repayment" ∧
        (match findUser db o.userId with
         | some u => u.debt
         | none => 0) < o.totalAmount then
      (.error .system, db)
    else
      let db1 := { dbT with orders := dbT.orders.map (fun x =>
          if x.id = o.id then { x with status := "paid", paymentMethod := "card" } else x) }
      let db2 := drainCart db1 o.userId (orderedQuantities (orderItemsOf db o.id))
      let db3 :=
        if o.orderType = "debt_repayment" then
          let db3a := { db2 with orders := db2.orders.map (fun x =>
              if x.id = o.id then { x with status := "done" } else x) }
          match userLocked with
          | some u =>
            { db3a with users := db3a.users.map (fun w =>
                if w.id = u.id then
                  { w with debt := if w.debt < o.totalAmount then 0 else w.debt - o.totalAmount }
                else w) }
          | none => db3a
        else db2
      (.ok { performTime := some (now * 1000), transaction := toString tx.id, state := 2 }, db3)

/-- `PaymeService.perform_transaction`. -/
def performTransaction (cfg : Settings) (now : Int) (db : DB) (paymeId : String) : PResult :=
  match findPaymeTx db paymeId with
  | none => (.error (.payme PaymeErrors.TRANSACTION_NOT_FOUND), db)
  | some tx =>
    if tx.state = 1 then
      if cfg.timeoutMinutes * 60 < now - tx.createTime then
        let db1 := { db with paymeTxs := db.paymeTxs.map (fun t =>
            if t.id = tx.id then
              { t with state := -1, reason := some 4, cancelTime := some now }
            else t) }
        (.error (.payme PaymeErrors.ALREADY_DONE), db1)
      else
        match findOrder db tx.orderId with
        | none => (.error (.payme PaymeErrors.ORDER_NOT_FOUND), db)
        | some o =>
          if o.paymentMethod ≠ "card" then (.error (.payme PaymeErrors.ORDER_AVAILABLE), db)
          else if expiredOnline cfg now o then
            (.error (.payme PaymeErrors.ORDER_AVAILABLE), cancelOrder db o.id)
          else if o.status ≠ "new" then (.error (.payme PaymeErrors.ORDER_AVAILABLE), db)
          else performTransactionCommit now db tx o
    else if tx.state = 2 then
      match tx.performTime with
      | some pt => (.ok { performTime := some (pt * 1000),
                          transaction := toString tx.id, state := 2 }, db)
      | none => (.error .system, db)
    else if tx.state < 0 then (.error (.payme PaymeErrors.ALREADY_DONE), db)
    else (.error (.payme PaymeErrors.CANT_CANCEL), db)

/-- `PaymeService.cancel_transaction`.  A state-1 transaction is mutated on
the session and then `OrderService.cancel_order(session, orderId,
commit=False)` is called; `cancel_order` accepts no `commit` keyword, so the
call raises `TypeError`, the webhook answers `-32400` and nothing is
committed. -/
def cancelTransaction (db : DB) (paymeId : String) (_reason : Int) : PResult :=
  match findPaymeTx db paymeId with
  | none => (.error (.payme PaymeErrors.TRANSACTION_NOT_FOUND), db)
  | some tx =>
    if tx.state < 0 then
      match tx.cancelTime with
      | some ct => (.ok { cancelTime := some (ct * 1000),
                          transaction := toString tx.id, state := tx.state }, db)
      | none => (.error .system, db)
    else if tx.state = 2 then (.error (.payme PaymeErrors.CANT_CANCEL), db)
    else if tx.state = 1 then (.error .system, db)
    else
      match tx.cancelTime with
      | some ct => (.ok { cancelTime := some (ct * 1000),
                          transaction := toString tx.id, state := tx.state }, db)
      | none => (.error .system, db)

/-- `PaymeService.check_perform_transaction`. -/
def checkPerformTransaction (cfg : Settings) (now : Int) (db : DB)
    (rawAmount : String) (account : Option String) : (Except PErr Bool) × DB :=
  match normalizeAmount rawAmount with
  | none => (.error (.payme PaymeErrors.INVALID_AMOUNT), db)
  | some amount =>
    match account.bind parsePyInt with
    | none => (.error (.payme PaymeErrors.ORDER_NOT_FOUND), db)
    | some oid =>
      match findOrder db oid with
      | none => (.error (.payme PaymeErrors.ORDER_NOT_FOUND), db)
      | some o =>
        if o.orderType = "debt_repayment" ∧ o.paymentMethod ≠ "card" then
          (.error (.payme PaymeErrors.ORDER_AVAILABLE), db)
        else if o.paymentMethod ≠ "card" then
          (.error (.payme PaymeErrors.ORDER_AVAILABLE), db)
        else if expiredOnline cfg now o then
          (.error (.payme PaymeErrors.ORDER_AVAILABLE), cancelOrder db o.id)
        else if o.totalAmount * 100 ≠ amount then
          (.error (.payme PaymeErrors.INVALID_AMOUNT), db)
        else if o.status ≠ "new" then
          (.error (.payme PaymeErrors.ORDER_AVAILABLE), db)
        else (.ok true, db)

/-! ## ClickService (`app/services/click_logic.py`)

The web route (`app/web/routes/click.py`) declares `click_trans_id`,
`service_id`, `click_paydoc_id`, `action` and `error` as integer form
fields and `amount` as a string, so the service's `int(...)` re-parses are
identities and are not re-modelled.  The MD5 signature comparison
(`check_sign`) is abstracted as the boolean `signOk` argument. -/

/-- The fields of the Click callback form consumed by the service. -/
structure ClickReq where
  clickTransId : Int
  serviceId : Int
  clickPaydocId : Int
  merchantTransId : String
  amount : String
  action : Int
  error : Int
  signTime : String
  signString : String
deriving DecidableEq, Repr

/-- A Click response dictionary; a field holding `none` models an absent
key. -/
structure ClickResp where
  clickTransId : Option Int := none
  merchantTransId : Option String := none
  merchantPrepareId : Option String := none
  merchantConfirmId : Option Int := none
  error : Int
  errorNote : String
deriving DecidableEq, Repr

/-- A Click handler outcome: `.error ()` models an uncaught exception
(HTTP 500). -/
abbrev CResult := Except Unit ClickResp × DB

/-- `ClickService.prepare`. -/
def clickPrepare (cfg : Settings) (now : Int) (db : DB) (req : ClickReq)
    (signOk : Bool) : CResult :=
  match clickParseAmount req.amount with
  | none => (.ok { error := -2, errorNote := "Incorrect Amount" }, db)
  | some amount =>
    if req.action ≠ 0 then (.ok { error := -3, errorNote := "Action not found" }, db)
    else if ¬ signOk then (.ok { error := -1, errorNote := "Sign check failed" }, db)
    else
      match parsePyInt req.merchantTransId with
      | none => (.ok { error := -5, errorNote := "Invalid Order ID" }, db)
      | some oid =>
        match findOrder db oid with
        | none => (.ok { error := -5, errorNote := "Order not found" }, db)
        | some o =>
          if expiredOnline cfg now o then
            (.ok { error := -9, errorNote := "Order expired" }, cancelOrder db o.id)
          else if ¬ decEqInt amount o.totalAmount then
            (.ok { error := -2, errorNote := "Incorrect Amount" }, db)
          else if o.status = "paid" ∨ o.status = "done" then
            (.ok { error := -4, errorNote := "Already paid" }, db)
          else if o.status = "cancelled" then
            (.ok { error := -9, errorNote := "Order cancelled" }, db)
          else
            (.ok { clickTransId := some req.clickTransId,
                   merchantTransId := some req.merchantTransId,
                   merchantPrepareId := some req.merchantTransId,
                   error := 0, errorNote := "Success" }, db)

/-- Integer value of a parsed Click amount for the stored `Numeric`
column (only reached for finite integral decimals). -/
def decValWhole : PyDec → Int
  | .finite m e => decToInt m e
  | _ => 0

/-- The payment tail of `ClickService.complete`: debt-coverage check for
debt repayment, then for a `new` order mark it paid, drain the cart, apply
the saturating debt deduction, insert the confirmed `ClickTransaction` and
commit. -/
def clickCompleteCommit (db : DB) (req : ClickReq) (o : Order) (amount : PyDec) : CResult :=
  let userLocked := if o.orderType = "debt_repayment" then findUser db o.userId else none
  if o.orderType = "debt_repayment" ∧
      (match findUser db o.userId with
       | some u => u.debt
       | none => 0) < o.totalAmount then
    (.ok { error := -2, errorNote := "Amount exceeds current debt" }, db)
  else if o.status = "new" then
    let db1 := { db with orders := db.orders.map (fun x =>
        if x.id = o.id then { x with status := "paid", paymentMethod := "click" } else x) }
    let db2 := drainCart db1 o.userId (orderedQuantities (orderItemsOf db o.id))
    let db3 : DB :=
      if o.orderType = "debt_repayment" then
        let db3a := { db2 with orders := db2.orders.map (fun x =>
            if x.id = o.id then { x with status := "done" } else x) }
        match userLocked with
        | some u =>
          { db3a with users := db3a.users.map (fun w =>
              if w.id = u.id then
                { w with debt := if w.debt < o.totalAmount then 0 else w.debt - o.totalAmount }
              else w) }
        | none => db3a
      else db2
    let newTx : ClickTx :=
      { id := db3.nextClickTxId, clickTransId := req.clickTransId,
        serviceId := req.serviceId, clickPaydocId := req.clickPaydocId,
        merchantTransId := req.merchantTransId, amount := decValWhole amount,
        action := 1, error := 0, signTime := req.signTime,
        signString := req.signString, status := "confirmed" }
    let db4 := { db3 with
      clickTxs := db3.clickTxs ++ [newTx],
      nextClickTxId := db3.nextClickTxId + 1 }
    (.ok { clickTransId := some req.clickTransId,
           merchantTransId := some req.merchantTransId,
           merchantConfirmId := some o.id, error := 0, errorNote := "Success" }, db4)
  else
    (.ok { clickTransId := some req.clickTransId,
           merchantTransId := some req.merchantTransId,
           merchantConfirmId := some o.id, error := 0, errorNote := "Success" }, db)

/-- `ClickService.complete`. -/
def clickComplete (cfg : Settings) (now : Int) (db : DB) (req : ClickReq)
    (signOk : Bool) : CResult :=
  match clickParseAmount req.amount with
  | none => (.ok { error := -2, errorNote := "Incorrect Amount" }, db)
  | some amount =>
    if req.action ≠ 1 then (.ok { error := -3, errorNote := "Action not found" }, db)
    else if ¬ signOk then (.ok { error := -1, errorNote := "Sign check failed" }, db)
    else
      match parsePyInt req.merchantTransId with
      | none => (.ok { error := -5, errorNote := "Invalid Order ID" }, db)
      | some oid =>
        match findOrder db oid with
        | none => (.ok { error := -5, errorNote := "Order not found" }, db)
        | some o =>
          if expiredOnline cfg now o then
            (.ok { error := -9, errorNote := "Order expired" }, cancelOrder db o.id)
          else if req.error < 0 then
            if o.status = "cancelled" then
              (.ok { clickTransId := some req.clickTransId,
                     merchantTransId := some req.merchantTransId,
                     error := 0, errorNote := "Transaction already cancelled" }, db)
            else
              (.ok { clickTransId := some req.clickTransId,
                     merchantTransId := some req.merchantTransId,
                     error := 0, errorNote := "Transaction cancelled" },
               cancelOrder db o.id)
          else if o.status = "paid" ∨ o.status = "done" then
            (.ok { error := -4, errorNote := "Order already paid" }, db)
          else if o.status = "cancelled" then
            (.ok { error := -9, errorNote := "Transaction cancelled" }, db)
          else
            match scalarOneOrNone (db.clickTxs.filter (fun t =>
                t.clickTransId == req.clickTransId && t.status == "confirmed")) with
            | none => (.error (), db)
            | some (some _) =>
              (.ok { clickTransId := some req.clickTransId,
                     merchantTransId := some req.merchantTransId,
                     merchantConfirmId := some o.id,
                     error := 0, errorNote := "Already confirmed" }, db)
            | some none =>
              if ¬ decEqInt amount o.totalAmount then
                (.ok { error := -2, errorNote := "Incorrect Amount" }, db)
              else clickCompleteCommit db req o amount

/-! ## Payment redirect links (`app/utils/payment.py`) -/

def b64Alphabet : List Char :=
  "ABCDEFGHIJKLMNOPQRSTUVWXYZabcdefghijklmnopqrstuvwxyz0123456789+/".data

def b64Char (n : Nat) : Char := (b64Alphabet.drop n).headD 'A'

/-- Standard base64 of a byte list. -/
def b64EncodeBytes : List UInt8 → List Char
  | [] => []
  | [a] =>
    let x := a.toNat
    [b64Char (x / 4), b64Char (x % 4 * 16), '=', '=']
  | [a, b] =>
    let x := a.toNat
    let y := b.toNat
    [b64Char (x / 4), b64Char (x % 4 * 16 + y / 16), b64Char (y % 16 * 4), '=']
  | a :: b :: c :: rest =>
    let x := a.toNat
    let y := b.toNat
    let z := c.toNat
    b64Char (x / 4) :: b64Char (x % 4 * 16 + y / 16) ::
      b64Char (y % 16 * 4 + z / 64) :: b64Char (z % 64) :: b64EncodeBytes rest

def b64Encode (s : String) : String := String.mk (b64EncodeBytes s.toUTF8.toList)

/-- `generate_payme_link`: `PAYME_URL/base64("m=<id>;ac.order_id=<order>;a=<tiyin>")`
(the account field name is the constant `"order_id"` from the settings). -/
def generatePaymeLink (cfg : Settings) (orderId amountSum : Int) : String :=
  let params := "m=" ++ cfg.paymeId ++ ";ac.order_id=" ++ toString orderId ++
    ";a=" ++ toString (amountSum * 100)
  cfg.paymeUrl ++ "/" ++ b64Encode params

/-- `generate_click_link`. -/
def generateClickLink (cfg : Settings) (orderId amountSum : Int) : String :=
  "https://my.click.uz/services/pay?service_id=" ++ cfg.clickServiceId ++
    "&merchant_id=" ++ cfg.clickMerchantId ++ "&amount=" ++ toString amountSum ++
    "&transaction_param=" ++ toString orderId

/-! ## OrderService.create_order and the shop route wrapper -/

/-- `OrderCreateSchema` fields consumed by `create_order`. -/
structure OrderCreateData where
  itemIds : List Int
  deliveryMethod : String
  paymentMethod : String
  phone : String
  address : Option String
  comment : Option String
deriving DecidableEq, Repr

/-- The `HTTPException`s raised by `create_order`, by reason. -/
inductive OrderError where
  | phoneMissing
  | phoneInvalid
  | hasDebt
  | pendingOnline
  | addressRequired
  | invalidItems
  | emptyCart
  | productUnavailable
  | productInactive (name : String)
  | insufficientStock (productId stockLeft : Int)
  | totalNotPositive
deriving DecidableEq, Repr

/-- A successful `create_order` response. -/
inductive OrderOk where
  | redirect (url : String)
  | success (orderId : Int)
deriving DecidableEq, Repr

/-- The per-item loop of `create_order`: reject inactive products, apply the
conditional stock decrement `UPDATE products SET stock = stock - qty WHERE
id = ? AND stock >= qty` (rowcount 0 fails with the current stock from a
follow-up read), and accumulate `price * qty`.  Products are the relation
objects loaded with the cart rows; the stock test runs on the current
pending state. -/
def stockLoop : List (CartItem × Product) → DB → Int → Except OrderError (DB × Int)
  | [], dbp, total => .ok (dbp, total)
  | (it, prod) :: rest, dbp, total =>
    if ¬ prod.isActive then .error (.productInactive prod.nameRu)
    else if dbp.products.any (fun p => p.id == it.productId && it.quantity ≤ p.stock) then
      let dbp2 := { dbp with products := dbp.products.map (fun p =>
          if p.id = it.productId ∧ it.quantity ≤ p.stock then
            { p with stock := p.stock - it.quantity }
          else p) }
      stockLoop rest dbp2 (total + prod.price * it.quantity)
    else
      .error (.insufficientStock it.productId
        (match findProduct dbp it.productId with
         | some p => p.stock
         | none => 0))

/-- The tail of `create_order` after the cart rows were fetched: length and
emptiness checks, soft-deleted product cleanup (which deletes those cart
rows and commits before raising), the conditional stock-decrement loop, the
order and item inserts, the conditional cart cleanup and the per-method
response.  `db1` is the state of the last commit; `dbA` additionally holds
the pending address insert. -/
def createOrderFinish (cfg : Settings) (now : Int) (db1 dbA : DB) (user : User)
    (od : OrderCreateData) (cartSel : List CartItem) (finalAddress : String) :
    Except OrderError OrderOk × DB :=
  if cartSel.length ≠ od.itemIds.length then (.error .invalidItems, db1)
  else if cartSel = [] then (.error .emptyCart, db1)
  else
    let missing := cartSel.filter (fun c => (findProduct db1 c.productId).isNone)
    if missing ≠ [] then
      (.error .productUnavailable,
       { dbA with cartItems := dbA.cartItems.filter (fun c =>
           missing.all (fun m => m.id ≠ c.id)) })
    else
      let pairs := cartSel.filterMap (fun c =>
        (findProduct db1 c.productId).map (fun p => (c, p)))
      match stockLoop pairs dbA 0 with
      | .error e => (.error e, db1)
      | .ok (db2, total) =>
        if total ≤ 0 then (.error .totalNotPositive, db1)
        else
          let oid := db2.nextOrderId
          let newOrder : Order :=
            { id := oid, userId := user.id, status := "new", orderType := "product",
              paymentMethod := od.paymentMethod, deliveryMethod := od.deliveryMethod,
              deliveryAddress := finalAddress, totalAmount := total,
              contactPhone := od.phone, createdAt := now }
          let newItems := pairs.map (fun pr =>
            ({ orderId := oid, productId := some pr.2.id, productName := pr.2.nameRu,
               priceAtPurchase := pr.2.price, quantity := pr.1.quantity } : OrderItem))
          let db3 := { db2 with
            orders := db2.orders ++ [newOrder],
            nextOrderId := oid + 1,
            orderItems := db2.orderItems ++ newItems,
            cartItems :=
              if od.paymentMethod = "card" ∨ od.paymentMethod = "click" then
                db2.cartItems
              else db2.cartItems.filter (fun c =>
                ¬ (od.itemIds.contains c.id && c.userId == user.id)) }
          if od.paymentMethod = "card" then
            (.ok (.redirect (generatePaymeLink cfg oid total)), db3)
          else (.ok (.success oid), db3)

/-- `OrderService.create_order`.  Returns the response (or the raised
`HTTPException`) together with the committed database; an exception rolls
back to the last commit. -/
def createOrder (cfg : Settings) (now : Int) (db : DB) (user : User)
    (od : OrderCreateData) : Except OrderError OrderOk × DB :=
  let phoneStr := String.mk (pyStrip od.phone.data)
  if phoneStr = "" then (.error .phoneMissing, db)
  else if (phoneStr.data.filter Char.isDigit).length < 9 then (.error .phoneInvalid, db)
  else if 0 < user.debt then (.error .hasDebt, db)
  else
    let db1 := cancelExpiredOnlineOrders cfg now db user.id
    if db1.orders.any (fun o => o.userId == user.id && o.status == "new" &&
        (o.paymentMethod == "card" || o.paymentMethod == "click") &&
        now - cfg.timeoutMinutes * 60 ≤ o.createdAt) then
      (.error .pendingOnline, db1)
    else if od.deliveryMethod = "delivery" ∧ ¬ truthyOptStr od.address then
      (.error .addressRequired, db1)
    else
      let finalAddress :=
        if od.deliveryMethod = "pickup" then "Самовывоз: Чиланзар, 1"
        else od.address.getD ""
      let dbA : DB :=
        if od.deliveryMethod = "pickup" then db1
        else if db1.addresses.any (fun a => a.1 == user.id && a.2 == od.address.getD "") then
          db1
        else { db1 with addresses := db1.addresses ++ [(user.id, od.address.getD "")] }
      let cartSel := db1.cartItems.filter (fun c =>
        od.itemIds.contains c.id && c.userId == user.id)
      createOrderFinish cfg now db1 dbA user od cartSel finalAddress

/-- The responses of the `/order/create` route (`app/web/routes/shop.py`). -/
inductive RouteOut where
  | json (r : OrderOk)
  | redirectUrl (url : String)
  | errorOut (e : OrderError)
  | tooMany
  | serverError
deriving DecidableEq, Repr

/-- The `/order/create` route: rate limit, call the service, and for a
successful Click order fetch the new order and answer with the redirect URL
built by `generate_click_link`. -/
def createOrderEndpoint (cfg : Settings) (now : Int) (db : DB) (user : User)
    (od : OrderCreateData) (rateLimited : Bool) : RouteOut × DB :=
  if rateLimited then (.tooMany, db)
  else
    match createOrder cfg now db user od with
    | (.error e, db1) => (.errorOut e, db1)
    | (.ok r, db1) =>
      if od.paymentMethod = "click" then
        match r with
        | .success oid =>
          match findOrder db1 oid with
          | some o2 => (.redirectUrl (generateClickLink cfg o2.id o2.totalAmount), db1)
          | none => (.serverError, db1)
        | .redirect u => (.json (.redirect u), db1)
      else (.json r, db1)

/-! ## Concrete fixtures used by witnesses and counterexamples -/

/-- A configuration with the shipped 20-minute payment timeout. -/
def cfgW : Settings :=
  { timeoutMinutes := 20, paymeId := "697b63129eccc7679b552de7",
    paymeUrl := "https://checkout.test.paycom.uz", defaultPackageCode := "000000",
    clickServiceId := "95107", clickMerchantId := "55704" }

def productW1 : Product :=
  { id := 1, nameRu := "Товар А", price := 10000, stock := 2, isActive := true,
    ikpu := some "00702001001000123", packageCode := some "000001" }

def productW2 : Product :=
  { id := 2, nameRu := "Товар Б", price := 5000, stock := 5, isActive := true,
    ikpu := none, packageCode := none }

def orderW5 : Order :=
  { id := 5, userId := 1, status := "new", orderType := "product",
    paymentMethod := "card", deliveryMethod := "pickup", deliveryAddress := "x",
    totalAmount := 15000, contactPhone := "+998901234567", createdAt := 1000000 }

def orderItemW5a : OrderItem :=
  { orderId := 5, productId := some 1, productName := "Товар А",
    priceAtPurchase := 10000, quantity := 1 }

def orderItemW5b : OrderItem :=
  { orderId := 5, productId := some 2, productName := "Товар Б",
    priceAtPurchase := 5000, quantity := 1 }

/-- Base state: user 1 with empty debt, order 5 awaiting card payment,
two cart rows. -/
def dbW : DB :=
  { users := [{ id := 1, debt := 0 }], products := [productW1, productW2],
    cartItems := [⟨1, 1, 1, 1⟩, ⟨2, 1, 2, 3⟩], orders := [orderW5],
    orderItems := [orderItemW5a, orderItemW5b], paymeTxs := [], clickTxs := [],
    addresses := [], nextOrderId := 6, nextPaymeTxId := 1, nextClickTxId := 1 }

/-- `dbW` with an existing state-1 Payme transaction `T1` for order 5. -/
def txW1 : PaymeTx :=
  { id := 1, paymeId := "T1", time := 1000100000, amount := 1500000, orderId := 5,
    state := 1, reason := none, createTime := 1000100, performTime := none,
    cancelTime := none }

def dbWtx1 : DB :=
  { dbW with paymeTxs := [txW1], nextPaymeTxId := 2 }

/-- `dbW` with a performed (state-2) Payme transaction `T2` for order 5,
order 5 paid. -/
def txW2 : PaymeTx :=
  { id := 1, paymeId := "T2", time := 1000100000, amount := 1500000, orderId := 5,
    state := 2, reason := none, createTime := 1000100, performTime := some 1000200,
    cancelTime := none }

def dbWtx2 : DB :=
  { dbW with
    orders := [{ orderW5 with status := "paid" }],
    paymeTxs := [txW2],
    nextPaymeTxId := 2 }

/-- The Click cancel request used by the C8 witness: order 5, negative
provider error, action 1. -/
def reqW : ClickReq :=
  { clickTransId := 777, serviceId := 95107, clickPaydocId := 5555,
    merchantTransId := "5", amount := "15000", action := 1, error := -1,
    signTime := "t", signString := "s" }

/-- The expired-order state for the C10 witness: order 5 was created at
time 1000000 and `now` is 1010000 (far beyond the 20-minute window); the
state-1 transaction `T1` itself is recent (no perform-timeout). -/
def dbC10 : DB :=
  { dbW with paymeTxs := [{ txW1 with createTime := 1009000 }], nextPaymeTxId := 2 }

def reqPrepW : ClickReq := { reqW with action := 0, error := 0 }

def reqCompW : ClickReq := { reqW with action := 1, error := 0 }

/-- The number of active (state-1) Payme transactions of one order. -/
def activeCount (db : DB) (oid : Int) : Nat :=
  (db.paymeTxs.filter (fun t => t.orderId == oid && t.state == 1)).length

/-- An order request for more of product 1 than is in stock (cart row 3
holds quantity 5, stock is 2). -/
def odW : OrderCreateData :=
  { itemIds := [3], deliveryMethod := "pickup", paymentMethod := "cash",
    phone := "+998901234567", address := none, comment := none }

/-- `dbW` plus a cart row asking for 5 units of product 1. -/
def dbWbig : DB :=
  { dbW with cartItems := dbW.cartItems ++ [⟨3, 1, 1, 5⟩] }

/-- Total quantity held by the cart rows of one product. -/
def rowSumP (pid : Int) (l : List CartItem) : Int :=
  ((l.filter (fun c => c.productId == pid)).map (fun c => c.quantity)).sum

/-- Total quantity held by one user's cart rows for one product. -/
def cartQty (uid pid : Int) (l : List CartItem) : Int :=
  rowSumP pid (l.filter (fun c => c.userId == uid))

/-- Order items demanding five units of product 1 (more than the witness
cart below holds). -/
def itemsC6 : List OrderItem :=
  [{ orderId := 9, productId := some 1, productName := "Товар А",
     priceAtPurchase := 10000, quantity := 5 }]

/-- A cart holding only three units of product 1 for user 1, plus an
unrelated row of user 2. -/
def dbC6 : DB :=
  { dbW with cartItems := [⟨1, 1, 1, 3⟩, ⟨2, 2, 1, 4⟩] }

/-- A well-formed Click order request: pickup, valid phone, cart row 1. -/
def odC9 : OrderCreateData :=
  { itemIds := [1], deliveryMethod := "pickup", paymentMethod := "click",
    phone := "+998901234567", address := none, comment := none }

/-- `dbW` without the pending online order 5 (so `create_order` succeeds). -/
def dbC9 : DB :=
  { dbW with orders := [{ orderW5 with status := "done" }] }

/-! ## C1 -/

/-- C1: evaluation of `cancel_transaction` at the claim's two inputs.  On a
performed (state-2) transaction it fails with -31007 and changes nothing,
exactly as claimed.  On a state-1 transaction, however, the code does not
reach the claimed cancel-and-commit: after mutating the session objects it
calls `OrderService.cancel_order(session, orderId, commit=False)`, and
`cancel_order` accepts no `commit` keyword, so the call raises `TypeError`;
the webhook answers the -32400 system error and neither the transaction nor
the order is changed. -/
theorem c1_cancel_transaction_behaviour :
    cancelTransaction dbWtx2 "T2" 5 = (.error (.payme PaymeErrors.CANT_CANCEL), dbWtx2) ∧
      cancelTransaction dbWtx1 "T1" 5 = (.error .system, dbWtx1) := by
  constructor <;> decide

/-! ## C7 -/

/-- C7 counterexample: the claimed codec (`specMoneyAccept`, transcribed
from the spec sentence) disagrees with both parsers in the code.  Payme's
`normalize_amount` performs no comma replacement and rejects `"12,0"`,
which the claimed codec accepts as 12; Click's `_parse_amount` removes all
whitespace rather than trimming it, accepting `" 1 2"` which the claimed
codec rejects; and the two code paths disagree with each other on
`"12,0"`. -/
theorem c7_counterexample :
    specMoneyAccept "12,0" = some 12 ∧ normalizeAmount "12,0" = none ∧
      clickParsedInt "12,0" = some 12 ∧
      clickParsedInt " 1 2" = some 12 ∧ specMoneyAccept " 1 2" = none := by
  exact ⟨rfl, rfl, rfl, rfl, rfl⟩

theorem dropWhile_all_false {p : Char → Bool} :
    ∀ {l : List Char}, (∀ c ∈ l, p c = false) → l.dropWhile p = l
  | [], _ => rfl
  | a :: t, h => by
    have ha := h a (by simp)
    simp [List.dropWhile_cons, ha]

theorem pyStrip_all_nonws {l : List Char} (h : ∀ c ∈ l, pyIsWs c = false) :
    pyStrip l = l := by
  unfold pyStrip
  rw [dropWhile_all_false h,
    dropWhile_all_false (fun c hc => h c (List.mem_reverse.mp hc)),
    List.reverse_reverse]

theorem removeAllWs_all_nonws {l : List Char} (h : ∀ c ∈ l, pyIsWs c = false) :
    removeAllWs l = l := by
  unfold removeAllWs
  apply List.filter_eq_self.mpr
  intro a ha
  simp [h a ha]

theorem commaToDot_no_comma {l : List Char} (h : ∀ c ∈ l, c ≠ ',') :
    commaToDot l = l := by
  unfold commaToDot
  have : l.map (fun c => if c = ',' then '.' else c) = l.map id := by
    apply List.map_congr_left
    intro a ha
    simp [h a ha]
  rw [this, List.map_id]

/-- C7 (amended): Click's `_parse_amount` removes all whitespace and
replaces `,` with `.` before the decimal-integrality test, while Payme's
`normalize_amount` applies the test to the raw string with no comma
replacement; the two parsers agree exactly on inputs free of whitespace and
commas. -/
theorem c7_click_payme_agree (s : String)
    (h : ∀ c ∈ s.data, pyIsWs c = false ∧ c ≠ ',') :
    normalizeAmount s = clickParsedInt s := by
  have hws : ∀ c ∈ s.data, pyIsWs c = false := fun c hc => (h c hc).1
  have hcm : ∀ c ∈ s.data, c ≠ ',' := fun c hc => (h c hc).2
  unfold clickParsedInt clickParseAmount normalizeAmount
  rw [removeAllWs_all_nonws hws, commaToDot_no_comma hcm]
  cases hp : pyDecOfChars s.data with
  | none => rfl
  | some d =>
    cases d with
    | finite m e => cases hI : decIsIntegral m e <;> simp [hI]
    | infinite b => rfl
    | nan => rfl

/-- C7 witness: the agreement theorem applied at the concrete input
`"250"`. -/
theorem c7_click_payme_agree_w :
    (∀ c ∈ "250".data, pyIsWs c = false ∧ c ≠ ',') ∧
      normalizeAmount "250" = clickParsedInt "250" :=
  ⟨by decide, c7_click_payme_agree "250" (by decide)⟩

/-! ## C8 -/

/-- C8: a Click `complete` request with `action = 1`, a valid signature and a
negative provider `error` is a provider-initiated cancel.  If the order is
already cancelled the handler answers success without touching the state;
otherwise (including paid and done orders) it runs `CancelOrder` on the
order, commits, and answers success. -/
theorem c8_click_provider_cancel (cfg : Settings) (now : Int) (db : DB)
    (req : ClickReq) (amt : PyDec) (oid : Int) (o : Order)
    (hamt : clickParseAmount req.amount = some amt)
    (hact : req.action = 1)
    (hmid : parsePyInt req.merchantTransId = some oid)
    (hord : findOrder db oid = some o)
    (hexp : ¬ expiredOnline cfg now o)
    (herr : req.error < 0) :
    (o.status = "cancelled" →
      clickComplete cfg now db req true =
        (.ok { clickTransId := some req.clickTransId,
               merchantTransId := some req.merchantTransId,
               error := 0, errorNote := "Transaction already cancelled" }, db)) ∧
    (o.status ≠ "cancelled" →
      clickComplete cfg now db req true =
        (.ok { clickTransId := some req.clickTransId,
               merchantTransId := some req.merchantTransId,
               error := 0, errorNote := "Transaction cancelled" }, cancelOrder db o.id)) := by
  constructor <;> intro h <;>
    simp [clickComplete, hamt, hmid, hord, hact, hexp, herr, h]

theorem addStock_orders (db : DB) (pid q : Int) : (addStock db pid q).orders = db.orders := rfl

theorem addDebt_orders (db : DB) (uid a : Int) : (addDebt db uid a).orders = db.orders := rfl

theorem restockFold_orders (items : List OrderItem) :
    ∀ db : DB,
      (items.foldl (fun acc it =>
        if truthyOptInt it.productId then addStock acc (it.productId.getD 0) it.quantity
        else acc) db).orders = db.orders := by
  induction items with
  | nil => intro db; rfl
  | cons a t ih =>
    intro db
    rw [List.foldl_cons, ih]
    split <;> rfl

/-- On a present, not-yet-cancelled order, `cancel_order` rewrites exactly
the order rows with the given id to status `cancelled`. -/
theorem cancelOrder_orders (db : DB) (oid : Int) (o : Order)
    (hf : findOrder db oid = some o) (hnc : o.status ≠ "cancelled") :
    (cancelOrder db oid).orders =
      db.orders.map (fun x => if x.id = oid then { x with status := "cancelled" } else x) := by
  simp only [cancelOrder, hf, if_neg hnc]
  by_cases h2 : o.orderType = "debt_repayment" ∧ (o.status = "paid" ∨ o.status = "done") <;>
    by_cases h1 : o.orderType = "product" <;>
      simp [h1, h2, addDebt_orders, restockFold_orders]

theorem cancelOrder_status_all (db : DB) (oid : Int) (o : Order)
    (hf : findOrder db oid = some o) (hnc : o.status ≠ "cancelled") :
    ∀ x ∈ (cancelOrder db oid).orders, x.id = oid → x.status = "cancelled" := by
  intro x hx hxid
  rw [cancelOrder_orders db oid o hf hnc] at hx
  rcases List.mem_map.mp hx with ⟨y, hy, hyx⟩
  by_cases hcase : y.id = oid
  · rw [if_pos hcase] at hyx
    rw [← hyx]
  · rw [if_neg hcase] at hyx
    rw [← hyx] at hxid
    exact absurd hxid hcase

/-- C8 witness: the theorem applied to the paid order 5 of `dbWtx2`; the
provider cancel reverses it. -/
theorem c8_click_provider_cancel_w :
    (({ orderW5 with status := "paid" } : Order).status ≠ "cancelled") ∧
      clickComplete cfgW 1000100 dbWtx2 reqW true =
        (.ok { clickTransId := some 777, merchantTransId := some "5",
               error := 0, errorNote := "Transaction cancelled" }, cancelOrder dbWtx2 5) :=
  ⟨by decide,
    (c8_click_provider_cancel cfgW 1000100 dbWtx2 reqW (PyDec.finite 15000 0) 5
      { orderW5 with status := "paid" } (by decide) rfl (by decide) (by decide)
      (by decide) (by decide)).2 (by decide)⟩

/-! ## C10 -/

/-- C10: every provider handler, on answering the order-expired error, has
already committed the expiry cancellation: the returned committed state is
`cancelOrder db o.id` (the state `cancel_expired_online_order` committed
itself), in which every order row with the order's id is `cancelled`, even
though the handler's own request fails. -/
theorem c10_expiry_cancel_committed (cfg : Settings) (now : Int) (db : DB)
    (pid pidP raw : String) (tms : Int) (acct : Option String) (a oid : Int)
    (o : Order) (tx : PaymeTx) (req0 req1 : ClickReq) (amt0 amt1 : PyDec)
    (hna : normalizeAmount raw = some a)
    (hacc : acct.bind parsePyInt = some oid)
    (hord : findOrder db oid = some o)
    (hmeth : o.paymentMethod = "card")
    (hexp : expiredOnline cfg now o)
    (ht1 : ¬ (now * 1000 + 60000 < tms))
    (ht2 : ¬ (cfg.timeoutMinutes * 60 * 1000 < |now * 1000 - tms|))
    (hfresh : findPaymeTx db pid = none)
    (hptx : findPaymeTx db pidP = some tx)
    (hst : tx.state = 1)
    (htm : ¬ (cfg.timeoutMinutes * 60 < now - tx.createTime))
    (hto : tx.orderId = oid)
    (hamt0 : clickParseAmount req0.amount = some amt0)
    (hact0 : req0.action = 0)
    (hmid0 : parsePyInt req0.merchantTransId = some oid)
    (hamt1 : clickParseAmount req1.amount = some amt1)
    (hact1 : req1.action = 1)
    (hmid1 : parsePyInt req1.merchantTransId = some oid) :
    checkPerformTransaction cfg now db raw acct =
        (.error (.payme PaymeErrors.ORDER_AVAILABLE), cancelOrder db o.id) ∧
      createTransaction cfg now db pid tms raw acct =
        (.error (.payme PaymeErrors.ORDER_AVAILABLE), cancelOrder db o.id) ∧
      performTransaction cfg now db pidP =
        (.error (.payme PaymeErrors.ORDER_AVAILABLE), cancelOrder db o.id) ∧
      clickPrepare cfg now db req0 true =
        (.ok { error := -9, errorNote := "Order expired" }, cancelOrder db o.id) ∧
      clickComplete cfg now db req1 true =
        (.ok { error := -9, errorNote := "Order expired" }, cancelOrder db o.id) ∧
      (∀ x ∈ (cancelOrder db o.id).orders, x.id = o.id → x.status = "cancelled") := by
  have hord' : db.orders.find? (fun x => x.id == oid) = some o := hord
  have hoid : o.id = oid := by
    have hp := List.find?_some hord'
    exact beq_iff_eq.mp hp
  refine ⟨?_, ?_, ?_, ?_, ?_, ?_⟩
  · simp [checkPerformTransaction, hna, hacc, hord, hmeth, hexp]
  · simp [createTransaction, hna, ht1, ht2, hfresh, hacc, hord, hmeth, hexp]
  · simp [performTransaction, hptx, hst, htm, hto, hord, hmeth, hexp]
  · simp [clickPrepare, hamt0, hact0, hmid0, hord, hexp]
  · simp [clickComplete, hamt1, hact1, hmid1, hord, hexp]
  · exact cancelOrder_status_all db o.id o (by rw [hoid]; exact hord)
      (by rw [hexp.1]; decide)

/-- C10 witness: all five handlers at the expired order 5 of `dbC10`. -/
theorem c10_expiry_cancel_committed_w :
    checkPerformTransaction cfgW 1010000 dbC10 "1500000" (some "5") =
        (.error (.payme PaymeErrors.ORDER_AVAILABLE), cancelOrder dbC10 orderW5.id) ∧
      createTransaction cfgW 1010000 dbC10 "TNEW" 1010000000 "1500000" (some "5") =
        (.error (.payme PaymeErrors.ORDER_AVAILABLE), cancelOrder dbC10 orderW5.id) ∧
      performTransaction cfgW 1010000 dbC10 "T1" =
        (.error (.payme PaymeErrors.ORDER_AVAILABLE), cancelOrder dbC10 orderW5.id) ∧
      clickPrepare cfgW 1010000 dbC10 reqPrepW true =
        (.ok { error := -9, errorNote := "Order expired" }, cancelOrder dbC10 orderW5.id) ∧
      clickComplete cfgW 1010000 dbC10 reqCompW true =
        (.ok { error := -9, errorNote := "Order expired" }, cancelOrder dbC10 orderW5.id) ∧
      (∀ x ∈ (cancelOrder dbC10 orderW5.id).orders, x.id = orderW5.id →
        x.status = "cancelled") :=
  c10_expiry_cancel_committed cfgW 1010000 dbC10 "TNEW" "T1" "1500000" 1010000000
    (some "5") 1500000 5 orderW5 { txW1 with createTime := 1009000 } reqPrepW reqCompW
    (PyDec.finite 15000 0) (PyDec.finite 15000 0)
    (by decide) (by decide) (by decide) (by decide) (by decide) (by decide) (by decide)
    (by decide) (by decide) (by decide) (by decide) (by decide) (by decide) (by decide)
    (by decide) (by decide) (by decide) (by decide)

/-! ## C2 -/

/-- C2 counterexample: the first `CreateTransaction` response carries the
`detail` receipt object, but the replay of the identical request returns the
state-1 snapshot without `detail`, so the two responses are not identical. -/
theorem c2_counterexample :
    (createTransaction cfgW 1000100 dbW "T1" 1000100000 "1500000" (some "5")).1 ≠
      (createTransaction cfgW 1000200
        (createTransaction cfgW 1000100 dbW "T1" 1000100000 "1500000" (some "5")).2
        "T1" 1000100000 "1500000" (some "5")).1 := by
  decide

theorem find?_append_none {α : Type} {p : α → Bool} :
    ∀ {l1 : List α} (l2 : List α), l1.find? p = none → (l1 ++ l2).find? p = l2.find? p
  | [], _, _ => rfl
  | a :: t, l2, h => by
    rw [List.find?_cons] at h
    cases hp : p a with
    | true => rw [hp] at h; exact absurd h (by simp)
    | false =>
      rw [hp] at h
      rw [List.cons_append, List.find?_cons, hp]
      exact find?_append_none l2 h

/-- C2 (amended): with a fresh `paymeId`, a valid order and no active
transaction, the first `CreateTransaction` inserts exactly one row and
returns the state-1 response with the `detail` receipt; every replay of the
identical request while the transaction is still in state 1 returns the same
`createTime`, `transaction` and `state` but without the `detail` key, and
leaves the database unchanged. -/
theorem c2_create_transaction_replay (cfg : Settings) (now1 now2 : Int) (db : DB)
    (pid raw : String) (tms : Int) (acct : Option String) (a oid : Int) (o : Order)
    (hna : normalizeAmount raw = some a)
    (ht1a : ¬ (now1 * 1000 + 60000 < tms))
    (ht1b : ¬ (cfg.timeoutMinutes * 60 * 1000 < |now1 * 1000 - tms|))
    (ht2a : ¬ (now2 * 1000 + 60000 < tms))
    (ht2b : ¬ (cfg.timeoutMinutes * 60 * 1000 < |now2 * 1000 - tms|))
    (hfresh : findPaymeTx db pid = none)
    (hacc : acct.bind parsePyInt = some oid)
    (hord : findOrder db oid = some o)
    (hmeth : o.paymentMethod = "card")
    (hexp : ¬ expiredOnline cfg now1 o)
    (hamt : o.totalAmount * 100 = a)
    (hstat : o.status = "new")
    (htype : o.orderType = "product")
    (hitems : orderItemsOf db o.id ≠ [])
    (hnoact : db.paymeTxs.filter (fun t => t.orderId == o.id && t.state == 1) = []) :
    ∃ r db1,
      createTransaction cfg now1 db pid tms raw acct =
          (.ok { createTime := some (now1 * 1000),
                 transaction := toString db.nextPaymeTxId,
                 state := 1, detail := some r }, db1) ∧
        db1.paymeTxs = db.paymeTxs ++
          [{ id := db.nextPaymeTxId, paymeId := pid, time := tms, amount := a,
             orderId := o.id, state := 1, reason := none, createTime := now1,
             performTime := none, cancelTime := none }] ∧
        createTransaction cfg now2 db1 pid tms raw acct =
          (.ok { createTime := some (now1 * 1000),
                 transaction := toString db.nextPaymeTxId,
                 state := 1, detail := none }, db1) ∧
        db1.paymeTxs.length = db.paymeTxs.length + 1 := by
  have hord' : db.orders.find? (fun x => x.id == oid) = some o := hord
  have hp := List.find?_some hord'
  have hoid : o.id = oid := beq_iff_eq.mp hp
  set newTx : PaymeTx :=
    { id := db.nextPaymeTxId, paymeId := pid, time := tms, amount := a,
      orderId := o.id, state := 1, reason := none, createTime := now1,
      performTime := none, cancelTime := none } with hnew
  refine ⟨{ receiptType := 0, items := receiptItemsFor cfg db o (orderItemsOf db o.id) },
    { db with
      paymeTxs := db.paymeTxs ++ [newTx],
      nextPaymeTxId := db.nextPaymeTxId + 1 },
    ?_, ?_, ?_, ?_⟩
  · simp [createTransaction, createTransactionInsert, hna, ht1a, ht1b, hfresh, hacc,
      hord, htype, hmeth, hexp, hamt, hstat, hitems, hnoact, scalarOneOrNone, hnew]
  · rfl
  · have hfresh' : db.paymeTxs.find? (fun t => t.paymeId == pid) = none := hfresh
    simp [createTransaction, hna, ht2a, ht2b, findPaymeTx, hfresh', hacc, hnew, hoid]
  · simp

/-- C2 witness: the replay theorem at the concrete state `dbW` and request
`("T1", 1500000 tiyin, order 5)`. -/
theorem c2_create_transaction_replay_w :
    ∃ r db1,
      createTransaction cfgW 1000100 dbW "T1" 1000100000 "1500000" (some "5") =
          (.ok { createTime := some (1000100 * 1000),
                 transaction := toString dbW.nextPaymeTxId,
                 state := 1, detail := some r }, db1) ∧
        db1.paymeTxs = dbW.paymeTxs ++
          [{ id := dbW.nextPaymeTxId, paymeId := "T1", time := 1000100000,
             amount := 1500000, orderId := orderW5.id, state := 1, reason := none,
             createTime := 1000100, performTime := none, cancelTime := none }] ∧
        createTransaction cfgW 1000200 db1 "T1" 1000100000 "1500000" (some "5") =
          (.ok { createTime := some (1000100 * 1000),
                 transaction := toString dbW.nextPaymeTxId,
                 state := 1, detail := none }, db1) ∧
        db1.paymeTxs.length = dbW.paymeTxs.length + 1 :=
  c2_create_transaction_replay cfgW 1000100 1000200 dbW "T1" "1500000" 1000100000
    (some "5") 1500000 5 orderW5
    (by decide) (by decide) (by decide) (by decide) (by decide) (by decide) (by decide)
    (by decide) (by decide) (by decide) (by decide) (by decide) (by decide) (by decide)
    (by decide)

/-! ## C4 -/

theorem addStock_paymeTxs (db : DB) (pid q : Int) :
    (addStock db pid q).paymeTxs = db.paymeTxs := rfl

theorem addDebt_paymeTxs (db : DB) (uid a : Int) :
    (addDebt db uid a).paymeTxs = db.paymeTxs := rfl

theorem restockFold_paymeTxs (items : List OrderItem) :
    ∀ db : DB,
      (items.foldl (fun acc it =>
        if truthyOptInt it.productId then addStock acc (it.productId.getD 0) it.quantity
        else acc) db).paymeTxs = db.paymeTxs := by
  induction items with
  | nil => intro db; rfl
  | cons a t ih =>
    intro db
    rw [List.foldl_cons, ih]
    split <;> rfl

theorem cancelOrder_paymeTxs (db : DB) (i : Int) :
    (cancelOrder db i).paymeTxs = db.paymeTxs := by
  unfold cancelOrder
  split
  · rfl
  · split
    · rfl
    · by_cases h2 : True <;>
        by_cases h1 : True <;>
          simp [addDebt_paymeTxs, restockFold_paymeTxs]
      all_goals split <;> split <;>
        simp [addDebt_paymeTxs, restockFold_paymeTxs]

theorem filter_map_length_le {α : Type} (p : α → Bool) (f : α → α)
    (hpf : ∀ t, p (f t) = true → p t = true) :
    ∀ l : List α, ((l.map f).filter p).length ≤ (l.filter p).length := by
  intro l
  induction l with
  | nil => simp
  | cons a t ih =>
    rw [List.map_cons, List.filter_cons, List.filter_cons]
    cases hfa : p (f a) with
    | true =>
      rw [hpf a hfa]
      simpa using Nat.succ_le_succ ih
    | false =>
      cases hpa : p a
      · simpa using ih
      · simpa using Nat.le_succ_of_le ih

/-- After cancelling the single active transaction of an order, no
transaction of that order is still in state 1. -/
theorem deactivate_filter_nil (l : List PaymeTx) (act : PaymeTx) (oid now : Int)
    (hfil : l.filter (fun t => t.orderId == oid && t.state == 1) = [act]) :
    (l.map (fun t => if t.id = act.id then
        { t with state := -1, reason := some 4, cancelTime := some now }
      else t)).filter (fun t => t.orderId == oid && t.state == 1) = [] := by
  rw [List.filter_eq_nil_iff]
  intro x hx
  rcases List.mem_map.mp hx with ⟨t, ht, rfl⟩
  by_cases hid : t.id = act.id
  · simp [hid]
  · rw [if_neg hid]
    intro hp
    have hmem : t ∈ l.filter (fun t => t.orderId == oid && t.state == 1) :=
      List.mem_filter.mpr ⟨ht, hp⟩
    rw [hfil] at hmem
    exact hid (by rw [List.mem_singleton.mp hmem])

theorem deactivate_filter_le (l : List PaymeTx) (act : PaymeTx) (i now : Int) :
    ((l.map (fun t => if t.id = act.id then
        { t with state := -1, reason := some 4, cancelTime := some now }
      else t)).filter (fun t => t.orderId == i && t.state == 1)).length ≤
      (l.filter (fun t => t.orderId == i && t.state == 1)).length := by
  apply filter_map_length_le
  intro t hp
  by_cases hid : t.id = act.id
  · rw [if_pos hid] at hp
    simp at hp
  · rwa [if_neg hid] at hp

theorem c4_insert_active (cfg : Settings) (now : Int) (db : DB) (pid : String)
    (tms a : Int) (o : Order) (hinv : ∀ i, activeCount db i ≤ 1) :
    ∀ i, activeCount (createTransactionInsert cfg now db pid tms a o).2 i ≤ 1 := by
  intro i
  unfold createTransactionInsert
  split
  · exact hinv i
  split
  · exact hinv i
  cases hfil : db.paymeTxs.filter (fun t => t.orderId == o.id && t.state == 1) with
  | nil =>
    simp only [scalarOneOrNone]
    unfold activeCount
    simp only [List.filter_append, List.length_append]
    by_cases hi : i = o.id
    · subst hi
      rw [hfil]
      simp
    · have hne : (o.id == i) = false := by
        exact beq_eq_false_iff_ne.mpr (fun h => hi h.symm)
      simp only [List.filter, hne, Bool.false_and]
      simpa using hinv i
  | cons act rest =>
    cases rest with
    | nil =>
      simp only [scalarOneOrNone]
      unfold activeCount
      simp only [List.filter_append, List.length_append]
      by_cases hi : i = o.id
      · subst hi
        rw [deactivate_filter_nil db.paymeTxs act o.id now hfil]
        simp
      · have hne : (o.id == i) = false := by
          exact beq_eq_false_iff_ne.mpr (fun h => hi h.symm)
        simp only [List.filter, hne, Bool.false_and, List.length_nil]
        have hle := deactivate_filter_le db.paymeTxs act i now
        have := hinv i
        unfold activeCount at this
        omega
    | cons b rest2 =>
      simp only [scalarOneOrNone]
      exact hinv i

/-- C4: `CreateTransaction` preserves the at-most-one-active-transaction
invariant: whatever the outcome, every order still has at most one Payme
transaction in state 1 in the committed state, because a new state-1 row is
only inserted after the existing active row of the order (if any) has been
cancelled with reason 4 inside the same critical section. -/
theorem c4_at_most_one_active (cfg : Settings) (now : Int) (db : DB)
    (pid raw : String) (tms : Int) (acct : Option String)
    (hinv : ∀ i, activeCount db i ≤ 1) :
    ∀ i, activeCount (createTransaction cfg now db pid tms raw acct).2 i ≤ 1 := by
  intro i
  unfold createTransaction
  repeat' split
  all_goals
    first
      | exact hinv i
      | (unfold activeCount
         rw [cancelOrder_paymeTxs]
         exact hinv i)
      | exact c4_insert_active _ _ _ _ _ _ _ hinv i

/-- C4 witness: the invariant is preserved when `CreateTransaction` replaces
the active transaction `T1` of order 5 in `dbWtx1` with the fresh id `T9`;
the instance at order 5. -/
theorem c4_at_most_one_active_w :
    activeCount (createTransaction cfgW 1000100 dbWtx1 "T9" 1000100000 "1500000"
      (some "5")).2 5 ≤ 1 :=
  c4_at_most_one_active cfgW 1000100 dbWtx1 "T9" "1500000" 1000100000 (some "5")
    (fun _ => List.length_filter_le _ _) 5

/-! ## C5 -/

theorem restockFold_users (items : List OrderItem) :
    ∀ db : DB,
      (items.foldl (fun acc it =>
        if truthyOptInt it.productId then addStock acc (it.productId.getD 0) it.quantity
        else acc) db).users = db.users := by
  induction items with
  | nil => intro db; rfl
  | cons a t ih =>
    intro db
    rw [List.foldl_cons, ih]
    split <;> rfl

theorem drainCart_users (db : DB) (uid : Int) (oq : List (Int × Int)) :
    (drainCart db uid oq).users = db.users := by
  unfold drainCart
  split <;> rfl

/-- The saturating debt deduction keeps every debt non-negative. -/
theorem satDeduct_users_nonneg (l : List User) (uid total : Int)
    (hd : ∀ u ∈ l, 0 ≤ u.debt) :
    ∀ w ∈ l.map (fun w =>
        if w.id = uid then
          { w with debt := if w.debt < total then 0 else w.debt - total }
        else w),
      0 ≤ w.debt := by
  intro w hw
  rcases List.mem_map.mp hw with ⟨y, hy, rfl⟩
  by_cases hid : y.id = uid
  · rw [if_pos hid]
    by_cases hlt : y.debt < total
    · simp [hlt]
    · simp only [if_neg hlt]
      omega
  · rw [if_neg hid]
    exact hd y hy

/-- Restoring a (non-negative) amount to a user's debt keeps every debt
non-negative. -/
theorem addDebtMap_nonneg (l : List User) (uid amt : Int)
    (hd : ∀ u ∈ l, 0 ≤ u.debt) (ha : 0 ≤ amt) :
    ∀ u ∈ l.map (fun u =>
        if u.id = uid then { u with debt := u.debt + amt } else u),
      0 ≤ u.debt := by
  intro u hu
  rcases List.mem_map.mp hu with ⟨y, hy, rfl⟩
  have hdy := hd y hy
  by_cases hid : y.id = uid
  · rw [if_pos hid]
    show 0 ≤ y.debt + amt
    omega
  · rw [if_neg hid]
    exact hdy

theorem cancelOrder_users_nonneg (db : DB) (i : Int)
    (hd : ∀ u ∈ db.users, 0 ≤ u.debt) (ht : ∀ o ∈ db.orders, 0 ≤ o.totalAmount) :
    ∀ u ∈ (cancelOrder db i).users, 0 ≤ u.debt := by
  intro u hu
  unfold cancelOrder at hu
  repeat' split at hu
  all_goals
    first
      | exact hd u hu
      | (simp only [restockFold_users] at hu
         exact hd u hu)
      | (simp only [addDebt, restockFold_users] at hu
         exact addDebtMap_nonneg db.users _ _ hd
           (ht _ (List.mem_of_find?_eq_some ‹_›)) u hu)

theorem c5_perform_commit (now : Int) (db : DB) (tx : PaymeTx) (o : Order)
    (hd : ∀ u ∈ db.users, 0 ≤ u.debt) :
    ∀ u ∈ (performTransactionCommit now db tx o).2.users, 0 ≤ u.debt := by
  intro u hu
  unfold performTransactionCommit at hu
  cases hul : findUser db o.userId with
  | none =>
    rw [hul] at hu
    repeat' split at hu
    all_goals
      first
        | exact hd u hu
        | (simp only [drainCart_users] at hu
           exact hd u hu)
  | some ul =>
    rw [hul] at hu
    repeat' split at hu
    all_goals
      first
        | exact hd u hu
        | (simp only [drainCart_users] at hu
           exact satDeduct_users_nonneg _ _ _ hd u hu)
        | (simp only [drainCart_users] at hu
           exact hd u hu)

theorem c5_click_commit (db : DB) (req : ClickReq) (o : Order) (amt : PyDec)
    (hd : ∀ u ∈ db.users, 0 ≤ u.debt) :
    ∀ u ∈ (clickCompleteCommit db req o amt).2.users, 0 ≤ u.debt := by
  intro u hu
  unfold clickCompleteCommit at hu
  cases hul : findUser db o.userId with
  | none =>
    rw [hul] at hu
    repeat' split at hu
    all_goals
      first
        | exact hd u hu
        | (simp only [drainCart_users] at hu
           exact hd u hu)
  | some ul =>
    rw [hul] at hu
    repeat' split at hu
    all_goals
      first
        | exact hd u hu
        | (simp only [drainCart_users] at hu
           exact satDeduct_users_nonneg _ _ _ hd u hu)
        | (simp only [drainCart_users] at hu
           exact hd u hu)

theorem c5_perform_users (cfg : Settings) (now : Int) (db : DB) (pid : String)
    (hd : ∀ u ∈ db.users, 0 ≤ u.debt) (ht : ∀ o ∈ db.orders, 0 ≤ o.totalAmount) :
    ∀ u ∈ (performTransaction cfg now db pid).2.users, 0 ≤ u.debt := by
  intro u hu
  unfold performTransaction at hu
  repeat' split at hu
  all_goals
    first
      | exact hd u hu
      | exact cancelOrder_users_nonneg _ _ hd ht u hu
      | exact c5_perform_commit _ _ _ _ hd u hu

theorem c5_click_users (cfg : Settings) (now : Int) (db : DB) (req : ClickReq)
    (signOk : Bool)
    (hd : ∀ u ∈ db.users, 0 ≤ u.debt) (ht : ∀ o ∈ db.orders, 0 ≤ o.totalAmount) :
    ∀ u ∈ (clickComplete cfg now db req signOk).2.users, 0 ≤ u.debt := by
  intro u hu
  unfold clickComplete at hu
  repeat' split at hu
  all_goals
    first
      | exact hd u hu
      | exact cancelOrder_users_nonneg _ _ hd ht u hu
      | exact c5_click_commit _ _ _ _ hd u hu

/-- C5: `User.debt` never becomes negative.  If every debt is non-negative
and every order total is non-negative, both payment-success handlers
(Payme `PerformTransaction` and Click `Complete`) leave every debt
non-negative: the debt-repayment deduction is saturating (clamped at 0) and
is only reached after the `totalAmount ≤ debt` verification on the locked
user row. -/
theorem c5_debt_nonneg (cfg : Settings) (now : Int) (db : DB) (pid : String)
    (req : ClickReq) (signOk : Bool)
    (hd : ∀ u ∈ db.users, 0 ≤ u.debt) (ht : ∀ o ∈ db.orders, 0 ≤ o.totalAmount) :
    (∀ u ∈ (performTransaction cfg now db pid).2.users, 0 ≤ u.debt) ∧
      (∀ u ∈ (clickComplete cfg now db req signOk).2.users, 0 ≤ u.debt) :=
  ⟨c5_perform_users cfg now db pid hd ht, c5_click_users cfg now db req signOk hd ht⟩

/-- C5 witness: performing `T1` on `dbWtx1` (a product order) and running a
Click complete for the same order leave all debts non-negative. -/
theorem c5_debt_nonneg_w :
    (∀ u ∈ (performTransaction cfgW 1000200 dbWtx1 "T1").2.users, 0 ≤ u.debt) ∧
      (∀ u ∈ (clickComplete cfgW 1000200 dbWtx1 reqCompW true).2.users, 0 ≤ u.debt) :=
  c5_debt_nonneg cfgW 1000200 dbWtx1 "T1" reqCompW true (by decide) (by decide)

/-! ## C3 -/

theorem restockFold_orderItems (items : List OrderItem) :
    ∀ db : DB,
      (items.foldl (fun acc it =>
        if truthyOptInt it.productId then addStock acc (it.productId.getD 0) it.quantity
        else acc) db).orderItems = db.orderItems := by
  induction items with
  | nil => intro db; rfl
  | cons a t ih =>
    intro db
    rw [List.foldl_cons, ih]
    split <;> rfl

theorem cancelOrder_orderItems (db : DB) (i : Int) :
    (cancelOrder db i).orderItems = db.orderItems := by
  unfold cancelOrder
  repeat' split
  all_goals simp [addDebt, restockFold_orderItems]

theorem cancelOrder_order_ids (db : DB) (i : Int) :
    (cancelOrder db i).orders.map (fun o => o.id) = db.orders.map (fun o => o.id) := by
  unfold cancelOrder
  repeat' split
  all_goals
    first
      | rfl
      | (simp only [addDebt, restockFold_orders, List.map_map]
         apply List.map_congr_left
         intro a _
         by_cases hc : a.id = i <;> simp [hc])

theorem cancelFold_order_ids (ids : List Int) :
    ∀ db : DB,
      (ids.foldl cancelOrder db).orders.map (fun o => o.id) =
        db.orders.map (fun o => o.id) := by
  induction ids with
  | nil => intro db; rfl
  | cons a t ih =>
    intro db
    rw [List.foldl_cons, ih, cancelOrder_order_ids]

theorem addStock_stock_nonneg (db : DB) (pid q : Int)
    (h : ∀ p ∈ db.products, 0 ≤ p.stock) (hq : 0 ≤ q) :
    ∀ p ∈ (addStock db pid q).products, 0 ≤ p.stock := by
  intro p hp
  rcases List.mem_map.mp hp with ⟨y, hy, rfl⟩
  have hy0 := h y hy
  by_cases hc : y.id = pid
  · rw [if_pos hc]
    show 0 ≤ y.stock + q
    omega
  · rw [if_neg hc]
    exact hy0

theorem restockFold_stock_nonneg (items : List OrderItem) :
    ∀ db : DB,
      (∀ p ∈ db.products, 0 ≤ p.stock) →
      (∀ it ∈ items, 0 ≤ it.quantity) →
      ∀ p ∈ (items.foldl (fun acc it =>
          if truthyOptInt it.productId then addStock acc (it.productId.getD 0) it.quantity
          else acc) db).products, 0 ≤ p.stock := by
  induction items with
  | nil => intro db h _; exact h
  | cons a t ih =>
    intro db h hq
    rw [List.foldl_cons]
    refine ih _ ?_ (fun it hit => hq it (by simp [hit]))
    split
    · exact addStock_stock_nonneg db _ _ h (hq a (by simp))
    · exact h

/-- `cancel_order` never drives a stock negative: it only adds the
(non-negative) item quantities back. -/
theorem cancelOrder_stock_nonneg (db : DB) (i : Int)
    (h : ∀ p ∈ db.products, 0 ≤ p.stock)
    (hq : ∀ it ∈ db.orderItems, 0 ≤ it.quantity) :
    ∀ p ∈ (cancelOrder db i).products, 0 ≤ p.stock := by
  intro p hp
  unfold cancelOrder at hp
  repeat' split at hp
  all_goals
    first
      | exact h p hp
      | exact restockFold_stock_nonneg _ db h
          (fun it hit => hq it (List.mem_of_mem_filter hit)) p hp

theorem cancelFold_stock_nonneg (ids : List Int) :
    ∀ db : DB,
      (∀ p ∈ db.products, 0 ≤ p.stock) →
      (∀ it ∈ db.orderItems, 0 ≤ it.quantity) →
      ∀ p ∈ (ids.foldl cancelOrder db).products, 0 ≤ p.stock := by
  induction ids with
  | nil => intro db h _; exact h
  | cons a t ih =>
    intro db h hq
    rw [List.foldl_cons]
    refine ih _ (cancelOrder_stock_nonneg db a h hq) ?_
    intro it hit
    rw [cancelOrder_orderItems] at hit
    exact hq it hit

/-- The conditional decrement loop of `create_order` preserves stock
non-negativity: a row is updated only when `qty ≤ stock`. -/
theorem stockLoop_stock_nonneg :
    ∀ {pairs : List (CartItem × Product)} {dbp : DB} {total : Int} {db2 : DB} {t2 : Int},
      (∀ p ∈ dbp.products, 0 ≤ p.stock) →
      stockLoop pairs dbp total = .ok (db2, t2) →
      ∀ p ∈ db2.products, 0 ≤ p.stock := by
  intro pairs
  induction pairs with
  | nil =>
    intro dbp total db2 t2 h heq
    unfold stockLoop at heq
    cases heq
    exact h
  | cons a rest ih =>
    intro dbp total db2 t2 h heq
    obtain ⟨it, prod⟩ := a
    unfold stockLoop at heq
    split at heq
    · exact absurd heq (by simp)
    · split at heq
      · refine ih ?_ heq
        intro p hp
        rcases List.mem_map.mp hp with ⟨y, hy, rfl⟩
        have hy0 := h y hy
        by_cases hc : y.id = it.productId ∧ it.quantity ≤ y.stock
        · rw [if_pos hc]
          have h2 := hc.2
          show 0 ≤ y.stock - it.quantity
          omega
        · rw [if_neg hc]
          exact hy0
      · exact absurd heq (by simp)

theorem c3_finish_stocks (cfg : Settings) (now : Int) (db1 dbA : DB) (user : User)
    (od : OrderCreateData) (cartSel : List CartItem) (fa : String)
    (h1 : ∀ p ∈ db1.products, 0 ≤ p.stock)
    (hA : ∀ p ∈ dbA.products, 0 ≤ p.stock) :
    ∀ p ∈ (createOrderFinish cfg now db1 dbA user od cartSel fa).2.products,
      0 ≤ p.stock := by
  intro p hp
  simp only [createOrderFinish] at hp
  repeat' split at hp
  all_goals
    first
      | exact h1 p hp
      | exact hA p hp
      | (rename_i heq c1 c2 c3
         exact stockLoop_stock_nonneg hA heq p hp)

set_option maxHeartbeats 1000000 in
theorem c3_stocks (cfg : Settings) (now : Int) (db : DB) (user : User)
    (od : OrderCreateData)
    (hstock : ∀ p ∈ db.products, 0 ≤ p.stock)
    (hqty : ∀ it ∈ db.orderItems, 0 ≤ it.quantity) :
    ∀ p ∈ (createOrder cfg now db user od).2.products, 0 ≤ p.stock := by
  intro p hp
  simp only [createOrder] at hp
  repeat' split at hp
  all_goals
    first
      | exact hstock p hp
      | exact cancelFold_stock_nonneg _ db hstock hqty p hp
      | (refine c3_finish_stocks _ _ _ _ _ _ _ _ ?_ ?_ p hp <;>
          (intro q hq
           exact cancelFold_stock_nonneg _ db hstock hqty q hq))

set_option maxHeartbeats 1000000 in
theorem c3_finish_orders_ids (cfg : Settings) (now : Int) (db1 dbA : DB) (user : User)
    (od : OrderCreateData) (cartSel : List CartItem) (fa : String) (l : List Int)
    (h1 : db1.orders.map (fun o => o.id) = l)
    (hA : dbA.orders.map (fun o => o.id) = l) :
    (createOrderFinish cfg now db1 dbA user od cartSel fa).2.orders.map
        (fun o => o.id) = l ∨
      ∃ v, (createOrderFinish cfg now db1 dbA user od cartSel fa).1 = .ok v := by
  simp only [createOrderFinish]
  repeat' split
  all_goals
    first
      | exact Or.inl h1
      | exact Or.inl hA
      | exact Or.inr ⟨_, rfl⟩

set_option maxHeartbeats 2000000 in
theorem c3_orders_shape (cfg : Settings) (now : Int) (db : DB) (user : User)
    (od : OrderCreateData) :
    (createOrder cfg now db user od).2.orders.map (fun o => o.id) =
        db.orders.map (fun o => o.id) ∨
      ∃ v, (createOrder cfg now db user od).1 = .ok v := by
  simp only [createOrder]
  repeat' split
  all_goals
    first
      | exact Or.inl rfl
      | exact Or.inl (cancelFold_order_ids _ db)
      | exact c3_finish_orders_ids _ _ _ _ _ _ _ _ _
          (cancelFold_order_ids _ db) (by exact cancelFold_order_ids _ db)

theorem c3_error_no_order (cfg : Settings) (now : Int) (db : DB) (user : User)
    (od : OrderCreateData) :
    ∀ e, (createOrder cfg now db user od).1 = .error e →
      (createOrder cfg now db user od).2.orders.map (fun o => o.id) =
        db.orders.map (fun o => o.id) := by
  intro e he
  rcases c3_orders_shape cfg now db user od with h | ⟨v, hv⟩
  · exact h
  · rw [hv] at he
    exact absurd he (by simp)

/-- C3: `create_order` decrements stock only through the conditional update
`stock := stock - qty` guarded by `qty ≤ stock`, so starting from
non-negative stocks (and non-negative order-item quantities for the expiry
cancellations), every committed state has non-negative stocks; and whenever
the guard fails (`insufficient_stock`), no order row is created. -/
theorem c3_stock_guard (cfg : Settings) (now : Int) (db : DB) (user : User)
    (od : OrderCreateData)
    (hstock : ∀ p ∈ db.products, 0 ≤ p.stock)
    (hqty : ∀ it ∈ db.orderItems, 0 ≤ it.quantity) :
    (∀ p ∈ (createOrder cfg now db user od).2.products, 0 ≤ p.stock) ∧
      (∀ pid st, (createOrder cfg now db user od).1 =
          .error (.insufficientStock pid st) →
        (createOrder cfg now db user od).2.orders.map (fun o => o.id) =
          db.orders.map (fun o => o.id)) :=
  ⟨c3_stocks cfg now db user od hstock hqty,
    fun _ _ he => c3_error_no_order cfg now db user od _ he⟩

/-- C3 witness: the insufficient-stock order attempt on `dbWbig` leaves all
stocks non-negative and creates no order. -/
theorem c3_stock_guard_w :
    (∀ p ∈ (createOrder cfgW 1000100 dbWbig ⟨1, 0⟩ odW).2.products, 0 ≤ p.stock) ∧
      (∀ pid st, (createOrder cfgW 1000100 dbWbig ⟨1, 0⟩ odW).1 =
          .error (.insufficientStock pid st) →
        (createOrder cfgW 1000100 dbWbig ⟨1, 0⟩ odW).2.orders.map (fun o => o.id) =
          dbWbig.orders.map (fun o => o.id)) :=
  c3_stock_guard cfgW 1000100 dbWbig ⟨1, 0⟩ odW (by decide) (by decide)

/-! ## C6 -/

theorem oqLookup_nil (k : Int) : oqLookup [] k = 0 := rfl

theorem oqLookup_cons (a : Int × Int) (t : List (Int × Int)) (j : Int) :
    oqLookup (a :: t) j = if a.1 == j then a.2 else oqLookup t j := by
  unfold oqLookup
  rw [List.find?_cons]
  cases hc : (a.1 == j) <;> simp [hc]

theorem oqSet_cons (a : Int × Int) (t : List (Int × Int)) (k v : Int) :
    oqSet (a :: t) k v = (if a.1 = k then (a.1, v) else a) :: oqSet t k v := rfl

theorem oqMember_cons (a : Int × Int) (t : List (Int × Int)) (k : Int) :
    oqMember (a :: t) k = ((a.1 == k) || oqMember t k) := by
  unfold oqMember
  rw [List.any_cons]

theorem oqLookup_nonneg (m : List (Int × Int)) (k : Int)
    (hm : ∀ p ∈ m, 0 ≤ p.2) : 0 ≤ oqLookup m k := by
  unfold oqLookup
  cases hf : m.find? (fun p => p.1 == k) with
  | none => exact le_refl 0
  | some p => exact hm p (List.mem_of_find?_eq_some hf)

theorem oqSet_nonneg (m : List (Int × Int)) (k v : Int)
    (hm : ∀ p ∈ m, 0 ≤ p.2) (hv : 0 ≤ v) :
    ∀ p ∈ oqSet m k v, 0 ≤ p.2 := by
  intro p hp
  rcases List.mem_map.mp hp with ⟨q, hq, rfl⟩
  by_cases hc : q.1 = k
  · rw [if_pos hc]
    exact hv
  · rw [if_neg hc]
    exact hm q hq

theorem oqLookup_set_ne (m : List (Int × Int)) (k v j : Int) (hkj : k ≠ j) :
    oqLookup (oqSet m k v) j = oqLookup m j := by
  induction m with
  | nil => rfl
  | cons a t ih =>
    rw [oqSet_cons, oqLookup_cons, oqLookup_cons]
    by_cases hc : a.1 = k
    · have hbq : (a.1 == j) = false := beq_eq_false_iff_ne.mpr (by rw [hc]; exact hkj)
      rw [if_pos hc, hbq, ih]
      simp
    · rw [if_neg hc, ih]

theorem oqLookup_set_self_of_pos (m : List (Int × Int)) (k v : Int)
    (h : 0 < oqLookup m k) : oqLookup (oqSet m k v) k = v := by
  induction m with
  | nil => exact absurd h (by simp [oqLookup_nil])
  | cons a t ih =>
    rw [oqSet_cons, oqLookup_cons]
    rw [oqLookup_cons] at h
    by_cases hc : a.1 = k
    · have hbq : (a.1 == k) = true := beq_iff_eq.mpr hc
      have hbq2 : ((((a.1, v) : Int × Int)).1 == k) = true := hbq
      rw [if_pos hc, hbq2]
      simp
    · have hbq : (a.1 == k) = false := beq_eq_false_iff_ne.mpr hc
      rw [hbq] at h
      simp only [Bool.false_eq_true, if_false] at h
      rw [if_neg hc, hbq]
      simp only [Bool.false_eq_true, if_false]
      exact ih h

theorem oqLookup_not_member (m : List (Int × Int)) (k : Int)
    (h : oqMember m k = false) : oqLookup m k = 0 := by
  unfold oqLookup
  cases hf : m.find? (fun p => p.1 == k) with
  | none => rfl
  | some p =>
    have hp := List.find?_some hf
    have hmem := List.mem_of_find?_eq_some hf
    have : oqMember m k = true := List.any_eq_true.mpr ⟨p, hmem, hp⟩
    rw [this] at h
    exact absurd h (by simp)

theorem rowSumP_nil (pid : Int) : rowSumP pid [] = 0 := rfl

theorem rowSumP_cons (pid : Int) (c : CartItem) (l : List CartItem) :
    rowSumP pid (c :: l) =
      (if c.productId == pid then c.quantity else 0) + rowSumP pid l := by
  unfold rowSumP
  rw [List.filter_cons]
  cases hc : (c.productId == pid) <;> simp [hc]

theorem rowSumP_append (pid : Int) (l1 l2 : List CartItem) :
    rowSumP pid (l1 ++ l2) = rowSumP pid l1 + rowSumP pid l2 := by
  unfold rowSumP
  rw [List.filter_append, List.map_append, List.sum_append]

theorem rowSumP_nonneg (pid : Int) (l : List CartItem)
    (h : ∀ c ∈ l, 0 < c.quantity) : 0 ≤ rowSumP pid l := by
  induction l with
  | nil => exact le_refl 0
  | cons c t ih =>
    rw [rowSumP_cons]
    have hc := h c (by simp)
    have ht := ih (fun x hx => h x (by simp [hx]))
    split <;> omega

theorem rowSumP_eq_zero (pid : Int) (l : List CartItem)
    (h : ∀ c ∈ l, (c.productId == pid) = false) : rowSumP pid l = 0 := by
  induction l with
  | nil => rfl
  | cons c t ih =>
    rw [rowSumP_cons, h c (by simp)]
    simp only [Bool.false_eq_true, if_false]
    rw [ih (fun x hx => h x (by simp [hx]))]
    simp

theorem rowSumP_perm (pid : Int) {l1 l2 : List CartItem} (h : l1.Perm l2) :
    rowSumP pid l1 = rowSumP pid l2 := by
  unfold rowSumP
  exact List.Perm.sum_eq (List.Perm.map _ (List.Perm.filter _ h))

theorem rowSumP_filter_congr (pid : Int) (p q : CartItem → Bool) (l : List CartItem)
    (h : ∀ c ∈ l, (c.productId == pid) = true → p c = q c) :
    rowSumP pid (l.filter p) = rowSumP pid (l.filter q) := by
  unfold rowSumP
  rw [List.filter_filter, List.filter_filter]
  rw [List.filter_congr (fun c hcm => ?_)]
  by_cases hp : (c.productId == pid) = true
  · rw [hp, h c hcm hp]
  · have : (c.productId == pid) = false := by
      cases hx : (c.productId == pid)
      · rfl
      · exact absurd hx hp
    rw [this]
    simp

/-- The drain loop subtracts from the cart rows of each product exactly the
minimum of the remaining ordered quantity and the quantity the rows hold. -/
theorem drainRows_sum :
    ∀ (l : List CartItem) (m : List (Int × Int)) (pid : Int),
      (∀ p ∈ m, 0 ≤ p.2) → (∀ c ∈ l, 0 < c.quantity) →
      rowSumP pid (drainRows m l).1 =
        rowSumP pid l - min (oqLookup m pid) (rowSumP pid l) := by
  intro l
  induction l with
  | nil =>
    intro m pid hm _
    have h0 := oqLookup_nonneg m pid hm
    rw [rowSumP_nil]
    show (0 : Int) = 0 - min (oqLookup m pid) 0
    omega
  | cons c rest ih =>
    intro m pid hm hc
    have hcq : 0 < c.quantity := hc c (by simp)
    have hrest : ∀ x ∈ rest, 0 < x.quantity := fun x hx => hc x (by simp [hx])
    have hS : 0 ≤ rowSumP pid rest := rowSumP_nonneg pid rest hrest
    have hr0 : 0 ≤ oqLookup m pid := oqLookup_nonneg m pid hm
    simp only [drainRows]
    split
    · rename_i hle
      rw [rowSumP_cons, rowSumP_cons, ih m pid hm hrest]
      by_cases hpq : c.productId = pid
      · subst hpq
        have hr0' : oqLookup m c.productId = 0 := le_antisymm hle hr0
        rw [hr0']
        simp only [beq_self_eq_true, if_true]
        omega
      · have hbq : (c.productId == pid) = false := beq_eq_false_iff_ne.mpr hpq
        rw [hbq]
        simp only [Bool.false_eq_true, if_false]
        omega
    · split
      · rename_i hle hlt
        have hrpos : 0 < oqLookup m c.productId := by omega
        rw [rowSumP_cons, rowSumP_cons,
          ih (oqSet m c.productId 0) pid (oqSet_nonneg m _ _ hm (le_refl 0)) hrest]
        by_cases hpq : c.productId = pid
        · subst hpq
          rw [oqLookup_set_self_of_pos m c.productId 0 hrpos]
          simp only [beq_self_eq_true, if_true]
          omega
        · have hbq : (c.productId == pid) = false := beq_eq_false_iff_ne.mpr hpq
          rw [oqLookup_set_ne m c.productId 0 pid hpq, hbq]
          simp only [Bool.false_eq_true, if_false]
          omega
      · rename_i hle hge
        have hrpos : 0 < oqLookup m c.productId := by omega
        have hvnn : 0 ≤ oqLookup m c.productId - c.quantity := by omega
        rw [rowSumP_cons,
          ih (oqSet m c.productId (oqLookup m c.productId - c.quantity)) pid
            (oqSet_nonneg m _ _ hm hvnn) hrest]
        by_cases hpq : c.productId = pid
        · subst hpq
          rw [oqLookup_set_self_of_pos m c.productId _ hrpos]
          simp only [beq_self_eq_true, if_true]
          omega
        · have hbq : (c.productId == pid) = false := beq_eq_false_iff_ne.mpr hpq
          rw [oqLookup_set_ne m c.productId _ pid hpq, hbq]
          simp only [Bool.false_eq_true, if_false]
          omega

/-- Every row surviving the drain loop descends from an input row with the
same product and user. -/
theorem drainRows_mem :
    ∀ (l : List CartItem) (m : List (Int × Int)) (c : CartItem),
      c ∈ (drainRows m l).1 →
      ∃ c0 ∈ l, c.productId = c0.productId ∧ c.userId = c0.userId := by
  intro l
  induction l with
  | nil => intro m c h; exact absurd h (by simp [drainRows])
  | cons a rest ih =>
    intro m c h
    simp only [drainRows] at h
    split at h
    · rcases List.mem_cons.mp h with hceq | hmem
      · exact ⟨a, by simp, by rw [hceq], by rw [hceq]⟩
      · rcases ih m c hmem with ⟨c0, hc0, he⟩
        exact ⟨c0, by simp [hc0], he⟩
    · split at h
      · rcases List.mem_cons.mp h with hceq | hmem
        · exact ⟨a, by simp, by rw [hceq], by rw [hceq]⟩
        · rcases ih _ c hmem with ⟨c0, hc0, he⟩
          exact ⟨c0, by simp [hc0], he⟩
      · rcases ih _ c h with ⟨c0, hc0, he⟩
        exact ⟨c0, by simp [hc0], he⟩

theorem oqAdd_nonneg (m : List (Int × Int)) (k v : Int)
    (hm : ∀ p ∈ m, 0 ≤ p.2) (hv : 0 ≤ v) : ∀ p ∈ oqAdd m k v, 0 ≤ p.2 := by
  intro p hp
  unfold oqAdd at hp
  split at hp
  · rcases List.mem_map.mp hp with ⟨q, hq, rfl⟩
    by_cases hc : q.1 = k
    · rw [if_pos hc]
      have h1 := hm q hq
      show 0 ≤ q.2 + v
      omega
    · rw [if_neg hc]
      exact hm q hq
  · rcases List.mem_append.mp hp with h1 | h1
    · exact hm p h1
    · rw [List.mem_singleton.mp h1]
      exact hv

/-- The per-product quantity map built from the order items has non-negative
values when the item quantities are non-negative. -/
theorem orderedQuantities_nonneg (items : List OrderItem)
    (h : ∀ it ∈ items, 0 ≤ it.quantity) :
    ∀ p ∈ orderedQuantities items, 0 ≤ p.2 := by
  unfold orderedQuantities
  suffices H : ∀ (its : List OrderItem), (∀ it ∈ its, 0 ≤ it.quantity) →
      ∀ (m : List (Int × Int)), (∀ p ∈ m, 0 ≤ p.2) →
      ∀ p ∈ its.foldl (fun m it =>
        if truthyOptInt it.productId then oqAdd m (it.productId.getD 0) it.quantity
        else m) m, 0 ≤ p.2 by
    exact H items h [] (by simp)
  intro its
  induction its with
  | nil => intro _ m hm p hp; exact hm p hp
  | cons a t ih =>
    intro hq m hm
    rw [List.foldl_cons]
    refine ih (fun it hit => hq it (by simp [hit])) _ ?_
    split
    · exact oqAdd_nonneg m _ _ hm (hq a (by simp))
    · exact hm

/-- Rows failing a predicate that is incompatible with the drain selection
are returned by `drainCart` exactly as they were. -/
theorem drainCart_frame_gen (db : DB) (uid : Int) (oq : List (Int × Int))
    (q : CartItem → Bool)
    (hq : ∀ c, q c = true → drainSelPred uid oq c = false) :
    (drainCart db uid oq).cartItems.filter q = db.cartItems.filter q := by
  unfold drainCart
  split
  · rfl
  · show ((db.cartItems.filter (fun c => !(drainSelPred uid oq c)) ++
        (drainRows oq (sortById (db.cartItems.filter (drainSelPred uid oq)))).1).filter q) = _
    rw [List.filter_append]
    have h2 : ((drainRows oq (sortById (db.cartItems.filter (drainSelPred uid oq)))).1.filter q) = [] := by
      refine List.filter_eq_nil_iff.mpr ?_
      intro c hcm hqc
      rcases drainRows_mem _ oq c hcm with ⟨c0, hc0, hp, hu⟩
      have hc0' : c0 ∈ db.cartItems.filter (drainSelPred uid oq) := by
        unfold sortById at hc0
        exact List.mem_mergeSort.mp hc0
      have hsel := List.of_mem_filter hc0'
      have hsc : drainSelPred uid oq c = true := by
        unfold drainSelPred at hsel ⊢
        rw [hp, hu]
        exact hsel
      rw [hq c hqc] at hsc
      exact absurd hsc (by simp)
    rw [h2, List.append_nil, List.filter_filter]
    refine List.filter_congr ?_
    intro c _
    by_cases hqc : q c = true
    · rw [hqc, hq c hqc]
      simp
    · have hqf : q c = false := by
        cases hx : q c
        · rfl
        · exact absurd hx hqc
      rw [hqf]
      simp

/-- The per-product, per-user cart quantity after the drain: the ordered
quantity is subtracted, saturating at what the cart rows actually held. -/
theorem drainCart_cartQty (db : DB) (uid : Int) (oq : List (Int × Int)) (pid : Int)
    (hm : ∀ p ∈ oq, 0 ≤ p.2) (hc : ∀ c ∈ db.cartItems, 0 < c.quantity) :
    cartQty uid pid (drainCart db uid oq).cartItems =
      cartQty uid pid db.cartItems -
        min (oqLookup oq pid) (cartQty uid pid db.cartItems) := by
  have hS : 0 ≤ cartQty uid pid db.cartItems := by
    unfold cartQty
    exact rowSumP_nonneg pid _ (fun c hcm => hc c (List.mem_of_mem_filter hcm))
  unfold drainCart
  split
  · rename_i hemp
    rw [List.isEmpty_iff.mp hemp, oqLookup_nil]
    omega
  · show cartQty uid pid
        (db.cartItems.filter (fun c => !(drainSelPred uid oq c)) ++
          (drainRows oq (sortById (db.cartItems.filter (drainSelPred uid oq)))).1) = _
    unfold cartQty
    have hS2 : 0 ≤ rowSumP pid (db.cartItems.filter (fun c => c.userId == uid)) := hS
    rw [List.filter_append, rowSumP_append]
    have hselpos : ∀ c ∈ sortById (db.cartItems.filter (drainSelPred uid oq)),
        0 < c.quantity := by
      intro c hcm
      unfold sortById at hcm
      exact hc c (List.mem_of_mem_filter (List.mem_mergeSort.mp hcm))
    by_cases hmem : oqMember oq pid = true
    · have hkeep : rowSumP pid
          ((db.cartItems.filter (fun c => !(drainSelPred uid oq c))).filter
            (fun c => c.userId == uid)) = 0 := by
        refine rowSumP_eq_zero pid _ ?_
        intro c hcm
        have hu := List.of_mem_filter hcm
        have hnp := List.of_mem_filter (List.mem_of_mem_filter hcm)
        cases hx : (c.productId == pid) with
        | false => rfl
        | true =>
          exfalso
          have hpid : c.productId = pid := beq_iff_eq.mp hx
          have : drainSelPred uid oq c = true := by
            unfold drainSelPred
            rw [hu, hpid, hmem]
            rfl
          rw [this] at hnp
          exact absurd hnp (by simp)
      have hdu : ((drainRows oq (sortById (db.cartItems.filter (drainSelPred uid oq)))).1.filter
          (fun c => c.userId == uid)) =
            (drainRows oq (sortById (db.cartItems.filter (drainSelPred uid oq)))).1 := by
        refine List.filter_eq_self.mpr ?_
        intro c hcm
        rcases drainRows_mem _ oq c hcm with ⟨c0, hc0, _, hu⟩
        have hc0' : c0 ∈ db.cartItems.filter (drainSelPred uid oq) := by
          unfold sortById at hc0
          exact List.mem_mergeSort.mp hc0
        have hsel := List.of_mem_filter hc0'
        unfold drainSelPred at hsel
        simp only [Bool.and_eq_true] at hsel
        rw [hu]
        exact hsel.1
      have hdrain := drainRows_sum
        (sortById (db.cartItems.filter (drainSelPred uid oq))) oq pid hm hselpos
      have hsort : rowSumP pid (sortById (db.cartItems.filter (drainSelPred uid oq))) =
          rowSumP pid (db.cartItems.filter (fun c => c.userId == uid)) := by
        have hperm : (sortById (db.cartItems.filter (drainSelPred uid oq))).Perm
            (db.cartItems.filter (drainSelPred uid oq)) := by
          unfold sortById
          exact List.mergeSort_perm _ _
        rw [rowSumP_perm pid hperm]
        refine rowSumP_filter_congr pid _ _ db.cartItems ?_
        intro c _ hcp
        unfold drainSelPred
        rw [beq_iff_eq.mp hcp, hmem]
        cases hx : (c.userId == uid) <;> rfl
      rw [hkeep, hdu, hdrain, hsort]
      omega
    · have hmemf : oqMember oq pid = false := by
        cases hx : oqMember oq pid
        · rfl
        · exact absurd hx hmem
      rw [oqLookup_not_member oq pid hmemf]
      have hdrain0 : rowSumP pid
          ((drainRows oq (sortById (db.cartItems.filter (drainSelPred uid oq)))).1.filter
            (fun c => c.userId == uid)) = 0 := by
        refine rowSumP_eq_zero pid _ ?_
        intro c hcm
        rcases drainRows_mem _ oq c (List.mem_of_mem_filter hcm) with ⟨c0, hc0, hp, _⟩
        have hc0' : c0 ∈ db.cartItems.filter (drainSelPred uid oq) := by
          unfold sortById at hc0
          exact List.mem_mergeSort.mp hc0
        have hsel := List.of_mem_filter hc0'
        unfold drainSelPred at hsel
        simp only [Bool.and_eq_true] at hsel
        have hmemp := hsel.2
        cases hx : (c.productId == pid) with
        | false => rfl
        | true =>
          exfalso
          rw [hp] at hx
          rw [beq_iff_eq.mp hx, hmemf] at hmemp
          exact absurd hmemp (by simp)
      have hkeep : rowSumP pid
          ((db.cartItems.filter (fun c => !(drainSelPred uid oq c))).filter
            (fun c => c.userId == uid)) =
          rowSumP pid (db.cartItems.filter (fun c => c.userId == uid)) := by
        rw [List.filter_filter]
        refine rowSumP_filter_congr pid _ _ db.cartItems ?_
        intro c _ hcp
        unfold drainSelPred
        rw [beq_iff_eq.mp hcp, hmemf]
        cases hx : (c.userId == uid) <;> rfl
      rw [hdrain0, hkeep]
      omega

/-- C6 counterexample: the drain does not always subtract exactly the
ordered quantity.  Order items demand five units of product 1, but user 1's
cart only holds three; the drain removes all three (not five). -/
theorem c6_counterexample :
    oqLookup (orderedQuantities itemsC6) 1 = 5 ∧
      cartQty 1 1 dbC6.cartItems = 3 ∧
      cartQty 1 1 (drainCart dbC6 1 (orderedQuantities itemsC6)).cartItems = 0 ∧
      cartQty 1 1 dbC6.cartItems -
          cartQty 1 1 (drainCart dbC6 1 (orderedQuantities itemsC6)).cartItems ≠
        oqLookup (orderedQuantities itemsC6) 1 := by
  have h := drainCart_cartQty dbC6 1 (orderedQuantities itemsC6) 1
    (orderedQuantities_nonneg itemsC6 (by decide)) (by decide)
  have h1 : oqLookup (orderedQuantities itemsC6) 1 = 5 := rfl
  have h2 : cartQty 1 1 dbC6.cartItems = 3 := rfl
  rw [h1, h2] at h
  refine ⟨h1, h2, ?_, ?_⟩
  · rw [h]
    decide
  · rw [h2, h, h1]
    decide

/-- C6 (amended): on payment success the cart drain touches only the paying
user's cart rows whose product appears among the order's items, and for
every product it subtracts `min(orderedQty, quantity held)` from that user's
rows — exactly the ordered quantity whenever the rows hold at least that
much (rows fully consumed are deleted, partially consumed rows are
decremented). -/
theorem c6_cart_drain (db : DB) (uid pid : Int) (items : List OrderItem)
    (hq : ∀ it ∈ items, 0 ≤ it.quantity)
    (hc : ∀ c ∈ db.cartItems, 0 < c.quantity) :
    ((drainCart db uid (orderedQuantities items)).cartItems.filter
        (fun c => !(oqMember (orderedQuantities items) c.productId)) =
      db.cartItems.filter
        (fun c => !(oqMember (orderedQuantities items) c.productId))) ∧
    ((drainCart db uid (orderedQuantities items)).cartItems.filter
        (fun c => !(c.userId == uid)) =
      db.cartItems.filter (fun c => !(c.userId == uid))) ∧
    (cartQty uid pid (drainCart db uid (orderedQuantities items)).cartItems =
      cartQty uid pid db.cartItems -
        min (oqLookup (orderedQuantities items) pid)
          (cartQty uid pid db.cartItems)) := by
  refine ⟨?_, ?_, ?_⟩
  · refine drainCart_frame_gen db uid _ _ ?_
    intro c hqc
    unfold drainSelPred
    have : oqMember (orderedQuantities items) c.productId = false := by
      cases hx : oqMember (orderedQuantities items) c.productId
      · rfl
      · rw [hx] at hqc
        exact absurd hqc (by simp)
    rw [this]
    simp
  · refine drainCart_frame_gen db uid _ _ ?_
    intro c hqc
    unfold drainSelPred
    have : (c.userId == uid) = false := by
      cases hx : (c.userId == uid)
      · rfl
      · rw [hx] at hqc
        exact absurd hqc (by simp)
    rw [this]
    simp
  · exact drainCart_cartQty db uid _ pid (orderedQuantities_nonneg items hq) hc

/-- C6 witness: the amended drain theorem at `dbW`, user 1, product 1, with
the items of `itemsC6` (ordered quantity five, cart holding one). -/
theorem c6_cart_drain_w :
    (∀ it ∈ itemsC6, 0 ≤ it.quantity) ∧ (∀ c ∈ dbW.cartItems, 0 < c.quantity) ∧
    (((drainCart dbW 1 (orderedQuantities itemsC6)).cartItems.filter
        (fun c => !(oqMember (orderedQuantities itemsC6) c.productId)) =
      dbW.cartItems.filter
        (fun c => !(oqMember (orderedQuantities itemsC6) c.productId))) ∧
    ((drainCart dbW 1 (orderedQuantities itemsC6)).cartItems.filter
        (fun c => !(c.userId == 1)) =
      dbW.cartItems.filter (fun c => !(c.userId == 1))) ∧
    (cartQty 1 1 (drainCart dbW 1 (orderedQuantities itemsC6)).cartItems =
      cartQty 1 1 dbW.cartItems -
        min (oqLookup (orderedQuantities itemsC6) 1)
          (cartQty 1 1 dbW.cartItems))) :=
  ⟨by decide, by decide, c6_cart_drain dbW 1 1 itemsC6 (by decide) (by decide)⟩

/-! ## C9 -/

theorem restockFold_nextOrderId (items : List OrderItem) :
    ∀ db : DB,
      (items.foldl (fun acc it =>
        if truthyOptInt it.productId then addStock acc (it.productId.getD 0) it.quantity
        else acc) db).nextOrderId = db.nextOrderId := by
  induction items with
  | nil => intro db; rfl
  | cons a t ih =>
    intro db
    rw [List.foldl_cons, ih]
    split <;> rfl

theorem cancelOrder_nextOrderId (db : DB) (i : Int) :
    (cancelOrder db i).nextOrderId = db.nextOrderId := by
  unfold cancelOrder
  repeat' split
  all_goals simp [addDebt, restockFold_nextOrderId]

theorem cancelFold_nextOrderId (ids : List Int) :
    ∀ db : DB, (ids.foldl cancelOrder db).nextOrderId = db.nextOrderId := by
  induction ids with
  | nil => intro db; rfl
  | cons a t ih =>
    intro db
    rw [List.foldl_cons, ih, cancelOrder_nextOrderId]

/-- The expiry-cancellation pass preserves the id-below-sequence invariant
of the orders table. -/
theorem cancelFold_orders_lt (ids : List Int) (db : DB)
    (hwf : ∀ o ∈ db.orders, o.id < db.nextOrderId) :
    ∀ o ∈ (ids.foldl cancelOrder db).orders,
      o.id < (ids.foldl cancelOrder db).nextOrderId := by
  intro o ho
  rw [cancelFold_nextOrderId]
  have hm : o.id ∈ (ids.foldl cancelOrder db).orders.map (fun x => x.id) :=
    List.mem_map_of_mem _ ho
  rw [cancelFold_order_ids] at hm
  rcases List.mem_map.mp hm with ⟨o2, ho2, he⟩
  rw [← he]
  exact hwf o2 ho2

/-- The conditional stock-decrement loop touches only the products table. -/
theorem stockLoop_frame :
    ∀ {pairs : List (CartItem × Product)} {dbp : DB} {total : Int} {db2 : DB} {t2 : Int},
      stockLoop pairs dbp total = .ok (db2, t2) →
      db2.orders = dbp.orders ∧ db2.nextOrderId = dbp.nextOrderId := by
  intro pairs
  induction pairs with
  | nil =>
    intro dbp total db2 t2 heq
    unfold stockLoop at heq
    cases heq
    exact ⟨rfl, rfl⟩
  | cons a rest ih =>
    intro dbp total db2 t2 heq
    obtain ⟨it, prod⟩ := a
    unfold stockLoop at heq
    split at heq
    · exact absurd heq (by simp)
    · split at heq
      · simp only [] at heq
        have hstep := ih heq
        exact ⟨hstep.1, hstep.2⟩
      · exact absurd heq (by simp)

/-- `find?` on a table whose last row carries a strictly larger id than all
earlier rows locates that row by its id. -/
theorem find?_snoc_fresh (l : List Order) (o : Order)
    (h : ∀ x ∈ l, x.id < o.id) :
    (l ++ [o]).find? (fun x => x.id == o.id) = some o := by
  rw [find?_append_none]
  · rw [List.find?_cons]
    have : (o.id == o.id) = true := beq_self_eq_true o.id
    rw [this]
  · rw [List.find?_eq_none]
    intro x hx
    have hlt := h x hx
    simp only [beq_iff_eq]
    omega

theorem exists_found_order {dbout : DB} {l : List Order} {o : Order} {r : OrderOk}
    (ho : dbout.orders = l ++ [o])
    (hlt : ∀ x ∈ l, x.id < o.id)
    (h3 : r = .success o.id) :
    ∃ oid o2, r = .success oid ∧ findOrder dbout oid = some o2 := by
  refine ⟨o.id, o, h3, ?_⟩
  unfold findOrder
  rw [ho]
  exact find?_snoc_fresh l o hlt

/-- An accepted `create_order` call with a non-card payment method answers
`success` with the id of the freshly inserted order row, and that row is
found again by id in the committed state. -/
theorem createOrderFinish_click {cfg : Settings} {now : Int} {db1 dbA : DB}
    {user : User} {od : OrderCreateData} {cartSel : List CartItem} {fa : String}
    {res : Except OrderError OrderOk} {dbout : DB} {r : OrderOk}
    (hclick : od.paymentMethod = "click")
    (heq : createOrderFinish cfg now db1 dbA user od cartSel fa = (res, dbout))
    (hwfA : ∀ o ∈ dbA.orders, o.id < dbA.nextOrderId)
    (hok : res = .ok r) :
    ∃ oid o2, r = .success oid ∧ findOrder dbout oid = some o2 := by
  subst hok
  simp only [createOrderFinish] at heq
  repeat' split at heq
  all_goals
    first
      | (injection heq with h1 h2; exact Except.noConfusion h1)
      | (exfalso; rename_i h; rw [hclick] at h; exact absurd h (by decide))
      | (exfalso; rename_i h x; rw [hclick] at h; exact absurd h (by decide))
      | (rename_i db2v totalv hstock htot hcond hcard
         injection heq with h1 h2
         injection h1 with h3
         subst h2
         obtain ⟨ho, hn⟩ := stockLoop_frame hstock
         refine exists_found_order rfl ?_ h3.symm
         intro x hx
         have hx2 : x ∈ dbA.orders := ho ▸ hx
         have hlt := hwfA x hx2
         show x.id < db2v.nextOrderId
         rw [hn]
         exact hlt)

/-- C9: every accepted `create_order` with `paymentMethod = click` makes the
`/order/create` route answer with the Click redirect URL in the documented
format, built from the stored order's id and total. -/
theorem c9_click_redirect (cfg : Settings) (now : Int) (db : DB) (user : User)
    (od : OrderCreateData) (r : OrderOk)
    (hwf : ∀ o ∈ db.orders, o.id < db.nextOrderId)
    (hclick : od.paymentMethod = "click")
    (hok : (createOrder cfg now db user od).1 = .ok r) :
    ∃ (oid amt : Int),
      (createOrderEndpoint cfg now db user od false).1 =
        .redirectUrl ("https://my.click.uz/services/pay?service_id=" ++
          cfg.clickServiceId ++ "&merchant_id=" ++ cfg.clickMerchantId ++
          "&amount=" ++ toString amt ++ "&transaction_param=" ++ toString oid) ∧
      r = .success oid := by
  cases hco : createOrder cfg now db user od with
  | mk res db1 =>
    rw [hco] at hok
    have hok2 : res = .ok r := hok
    subst hok2
    have hco2 := hco
    simp only [createOrder] at hco
    repeat' split at hco
    all_goals
      first
        | (injection hco with h1 h2; exact Except.noConfusion h1)
        | (obtain ⟨oid0, o, hr, hfind⟩ :=
             createOrderFinish_click hclick hco (cancelFold_orders_lt _ db hwf) rfl
           subst hr
           have hfind2 : db1.orders.find? (fun x => x.id == oid0) = some o := hfind
           have hpo :=
             @List.find?_some Order (fun x => x.id == oid0) o db1.orders hfind2
           have hoid : o.id = oid0 := beq_iff_eq.mp hpo
           refine ⟨oid0, o.totalAmount, ?_, rfl⟩
           simp [createOrderEndpoint, hco2, hclick, hfind, generateClickLink, hoid])

/-- C9 witness: the Click order `odC9` on `dbC9` (no pending online order)
is accepted as order 6 and the route answers with the Click URL for it. -/
theorem c9_click_redirect_w :
    (∀ o ∈ dbC9.orders, o.id < dbC9.nextOrderId) ∧
      ∃ (oid amt : Int),
        (createOrderEndpoint cfgW 1000100 dbC9 ⟨1, 0⟩ odC9 false).1 =
          .redirectUrl ("https://my.click.uz/services/pay?service_id=" ++
            cfgW.clickServiceId ++ "&merchant_id=" ++ cfgW.clickMerchantId ++
            "&amount=" ++ toString amt ++ "&transaction_param=" ++ toString oid) ∧
        OrderOk.success 6 = .success oid :=
  ⟨by decide,
    c9_click_redirect cfgW 1000100 dbC9 ⟨1, 0⟩ odC9 (.success 6) (by decide) rfl
      (by decide)⟩

end ShopBot
